import Mathlib

/-!
# NCData: interpolation of gridded ROMS output

Shallow embedding of `src/lib_HPLUtils/NCData.cpp`.

Conventions of the embedding

* `double` values are exact rationals; `pow(a, 2)` is `a ^ 2`.  The library
  function `sqrt` (from `<cmath>`) and the helper `WeightedAvg` (declared in
  `NCData.h`, body not part of the sources) are parameters of the functions
  that call them.
* The arrays loaded by `ReadNcFile` are never written after the load; they
  live in `Dataset`.  The fields that `Update` and its helpers assign live in
  `NCState`.
* An array read outside the allocated block has no defined result: every
  function that reads an array returns an `Option`, and `none` stands for
  such a read.
* `Update` has no `return` statement on the path where the value is good;
  its returned value is an `Option Bool`, `none` on that path.
-/

namespace NCData

/-- A C array of four elements, such as `int l_eta[4]` or `double l_dist[4]`. -/
structure Arr4 (α : Type) where
  a0 : α
  a1 : α
  a2 : α
  a3 : α
deriving DecidableEq, Repr

/-- The four elements in index order. -/
def Arr4.toList {α : Type} (a : Arr4 α) : List α := [a.a0, a.a1, a.a2, a.a3]

/-- A two-dimensional array (`mask_rho`, `bathy`) together with its allocated dimensions. -/
structure Arr2 (α : Type) where
  size_eta : Nat
  size_xi : Nat
  cell : Nat → Nat → α

/-- The read `a[j][i]`; `none` outside the allocated block. -/
def Arr2.read {α : Type} (a : Arr2 α) (j i : Nat) : Option α :=
  if j < a.size_eta ∧ i < a.size_xi then some (a.cell j i) else none

/-- A coordinate grid: the two arrays `l_meters_e`, `l_meters_n` and the dimensions
`size_eta`, `size_xi` that `XYtoIndex` receives with them. -/
structure Grid where
  size_eta : Nat
  size_xi : Nat
  meters_e : Nat → Nat → ℚ
  meters_n : Nat → Nat → ℚ

/-- The pair of reads `l_meters_n[j][i]`, `l_meters_e[j][i]`; `none` outside the grid. -/
def Grid.read (g : Grid) (j i : Nat) : Option (ℚ × ℚ) :=
  if j < g.size_eta ∧ i < g.size_xi then some (g.meters_n j i, g.meters_e j i) else none

/-- A four-dimensional field `double ****vals`, indexed `[t][level][eta][xi]`. -/
structure Field4 where
  nt : Nat
  ns : Nat
  neta : Nat
  nxi : Nat
  v : Nat → Nat → Nat → Nat → ℚ

/-- The read `vals[t][k][j][i]`, the level index being a C `int`; `none` outside the block. -/
def Field4.read (f : Field4) (t : Nat) (k : Int) (j i : Nat) : Option ℚ :=
  if 0 ≤ k ∧ t < f.nt ∧ k < f.ns ∧ j < f.neta ∧ i < f.nxi then some (f.v t k.toNat j i) else none

/-- The arrays filled once by `ReadNcFile`; `time_vals` is `time.length` and `s_rho` is
`s_values.length`. -/
structure Dataset where
  rho : Grid
  vec : Grid
  mask_rho : Arr2 Bool
  bathy : Arr2 ℚ
  s_values : List ℚ
  time : List ℚ
  rho_vals : Field4
  east_values : Field4
  north_values : Field4

/-- The fields of `NCData` that a query assigns. -/
structure NCState where
  time_step : Nat
  more_time : Bool
  time_since : ℚ
  time_until : ℚ
  time_message_posted : Bool
  eta_rho_index : Arr4 Nat
  xi_rho_index : Arr4 Nat
  rho_dist : Arr4 ℚ
  eta_east_index : Arr4 Nat
  xi_east_index : Arr4 Nat
  eta_north_index : Arr4 Nat
  xi_north_index : Arr4 Nat
  vec_dist : Arr4 ℚ
  floor_depth : ℚ
  m_altitude : ℚ
  s_level : Int
  dist_sigma : ℚ
  dist_sp1 : ℚ
  m_value : ℚ
  m_east_value : ℚ
  m_north_value : ℚ
deriving DecidableEq, Repr

/-- The constructor sets `bad_val = -1`; nothing assigns it afterwards. -/
def bad_val : ℚ := -1

/-- The local `int chk_dist = 100000` of `XYtoIndex`. -/
def chk_dist : ℚ := 100000

/-- What the constructor `NCData::NCData()` guarantees of the query fields:
`time_step = 0` and `time_message_posted = false`; the other fields are not initialised. -/
def Constructed (s : NCState) : Prop := s.time_step = 0 ∧ s.time_message_posted = false

instance (s : NCState) : Decidable (Constructed s) := by
  unfold Constructed; infer_instance

/-! ## XYtoIndex -/

/-- The three output arrays of `XYtoIndex`. -/
structure Near where
  l_eta : Arr4 Nat
  l_xi : Arr4 Nat
  l_dist : Arr4 ℚ
deriving DecidableEq, Repr

/-- The initialisation loop of `XYtoIndex`: indices zero, distances `chk_dist`. -/
def nearInit : Near :=
  { l_eta := ⟨0, 0, 0, 0⟩, l_xi := ⟨0, 0, 0, 0⟩, l_dist := ⟨chk_dist, chk_dist, chk_dist, chk_dist⟩ }

/-- The body of the inner loop of `XYtoIndex` for the cell `(j, i)` whose coordinates are
`n = l_meters_n[j][i]` and `e = l_meters_e[j][i]`.  The third test compares `n` with `x`
and `e` with `y`, as the source does. -/
def xyStep (sqrt : ℚ → ℚ) (x y n e : ℚ) (j i : Nat) (l : Near) : Near :=
  if (n - y) ^ 2 + (e - x) ^ 2 < l.l_dist.a0 ^ 2 then
    { l_dist := ⟨sqrt ((n - y) ^ 2 + (e - x) ^ 2), l.l_dist.a0, l.l_dist.a1, l.l_dist.a2⟩
      l_eta := ⟨j, l.l_eta.a0, l.l_eta.a1, l.l_eta.a2⟩
      l_xi := ⟨i, l.l_xi.a0, l.l_xi.a1, l.l_xi.a2⟩ }
  else if (n - y) ^ 2 + (e - x) ^ 2 < l.l_dist.a1 ^ 2 then
    { l_dist := ⟨l.l_dist.a0, sqrt ((n - y) ^ 2 + (e - x) ^ 2), l.l_dist.a1, l.l_dist.a2⟩
      l_eta := ⟨l.l_eta.a0, j, l.l_eta.a1, l.l_eta.a2⟩
      l_xi := ⟨l.l_xi.a0, i, l.l_xi.a1, l.l_xi.a2⟩ }
  else if (n - x) ^ 2 + (e - y) ^ 2 < l.l_dist.a2 ^ 2 then
    { l_dist := ⟨l.l_dist.a0, l.l_dist.a1, sqrt ((n - y) ^ 2 + (e - x) ^ 2), l.l_dist.a2⟩
      l_eta := ⟨l.l_eta.a0, l.l_eta.a1, j, l.l_eta.a2⟩
      l_xi := ⟨l.l_xi.a0, l.l_xi.a1, i, l.l_xi.a2⟩ }
  else if (n - y) ^ 2 + (e - x) ^ 2 < l.l_dist.a3 ^ 2 then
    { l_dist := ⟨l.l_dist.a0, l.l_dist.a1, l.l_dist.a2, sqrt ((n - y) ^ 2 + (e - x) ^ 2)⟩
      l_eta := ⟨l.l_eta.a0, l.l_eta.a1, l.l_eta.a2, j⟩
      l_xi := ⟨l.l_xi.a0, l.l_xi.a1, l.l_xi.a2, i⟩ }
  else l

/-- The inner loop `for (i ...)` of `XYtoIndex` on row `j`, over the column indices given. -/
def scanRow (sqrt : ℚ → ℚ) (x y : ℚ) (g : Grid) (j : Nat) : List Nat → Near → Option Near
  | [], l => some l
  | i :: is, l =>
    match g.read j i with
    | none => none
    | some (n, e) => scanRow sqrt x y g j is (xyStep sqrt x y n e j i l)

/-- The outer loop `for (j ...)` of `XYtoIndex`.  The inner loop runs `i` from `0` to
`size_eta`, the bound written in the source. -/
def scanGrid (sqrt : ℚ → ℚ) (x y : ℚ) (g : Grid) : List Nat → Near → Option Near
  | [], l => some l
  | j :: js, l =>
    match scanRow sqrt x y g j (List.range g.size_eta) l with
    | none => none
    | some l1 => scanGrid sqrt x y g js l1

/-- The function `NCData::XYtoIndex`: the returned flag and the three output arrays. -/
def XYtoIndex (sqrt : ℚ → ℚ) (x y : ℚ) (g : Grid) : Option (Bool × Near) :=
  match scanGrid sqrt x y g (List.range g.size_eta) nearInit with
  | none => none
  | some l =>
    if l.l_dist.a0 = chk_dist ∨ l.l_dist.a1 = chk_dist ∨ l.l_dist.a2 = chk_dist
        ∨ l.l_dist.a3 = chk_dist then
      some (false, { l with l_eta := ⟨0, 0, 0, 0⟩, l_xi := ⟨0, 0, 0, 0⟩ })
    else some (true, l)

/-! ## getTimeInfo -/

/-- The loop of `getTimeInfo`: `remaining` holds `time[i], time[i+1], ...`; every index
whose timestamp is strictly below `current_time` overwrites `time_step`. -/
def timeScan (current_time : ℚ) : List ℚ → Nat → Nat → Nat
  | [], _, time_step => time_step
  | t :: rest, i, time_step =>
    timeScan current_time rest (i + 1) (if current_time > t then i else time_step)

/-- The function `NCData::getTimeInfo`.  The reads `time[time_vals - 1]`, `time[time_step]`
and `time[time_step + 1]` are checked against the length of the axis. -/
def getTimeInfo (d : Dataset) (s : NCState) (current_time : ℚ) : Option NCState :=
  let time_step := timeScan current_time d.time 0 s.time_step
  match d.time.getLast? with
  | none => none
  | some tlast =>
    if current_time > tlast ∨ d.time.length = 1 then
      some { s with time_step := time_step, more_time := false }
    else
      match d.time[time_step]?, d.time[time_step + 1]? with
      | some t0, some t1 =>
        some { s with time_step := time_step, more_time := true,
                      time_since := current_time - t0, time_until := t1 - current_time }
      | _, _ => none

/-! ## getS_rho -/

/-- The loop `while ((k < s_rho) && (s_depths[k] > depth)) k++`: `remaining` holds
`s_depths[k], s_depths[k+1], ...`; the result is the final `k`. -/
def levelScan (depth : ℚ) : List ℚ → Nat → Nat
  | [], k => k
  | sd :: rest, k => if sd > depth then levelScan depth rest (k + 1) else k

/-- The read `s_depths[k]` with an `int` index. -/
def readLevel (s_depths : List ℚ) (k : Int) : Option ℚ :=
  if 0 ≤ k then s_depths[k.toNat]? else none

/-- The function `NCData::getS_rho`. -/
def getS_rho (d : Dataset) (s : NCState) (depth altitude : ℚ) : Option NCState :=
  let floor_depth := depth + altitude
  let s_depths := d.s_values.map (fun sv => -sv * floor_depth)
  let s_level : Int := (levelScan depth s_depths 0 : Int) - 1
  let dist_sigma : Option ℚ :=
    if s_level > 0 then (readLevel s_depths s_level).map (fun sd => sd - depth)
    else some (-1)
  let dist_sp1 : Option ℚ :=
    if s_level = (d.s_values.length : Int) - 1 then some (-1)
    else (readLevel s_depths (s_level + 1)).map (fun sd => depth - sd)
  match dist_sigma, dist_sp1 with
  | some ds, some dp =>
    some { s with floor_depth := floor_depth, s_level := s_level,
                  dist_sigma := ds, dist_sp1 := dp }
  | _, _ => none

/-! ## getValueAtTime, calcValue, GetBathy -/

/-- The type of the helper `WeightedAvg(values, weights, good, n)`. -/
abbrev Averager := List ℚ → List ℚ → List Int → Nat → ℚ

/-- One pass of the corner loop of `getValueAtTime` for corner `(j, i)` at level
`s_level + k`: the pair `(s_xy[i], good_xy[i])`. -/
def cornerAt (d : Dataset) (s : NCState) (t : Nat) (vals : Field4) (k : Int) (j i : Nat) :
    Option (ℚ × Int) :=
  match d.mask_rho.read j i with
  | none => none
  | some water =>
    if water then
      match vals.read t (s.s_level + k) j i with
      | none => none
      | some v => some (v, 1)
    else some (-1, 0)

/-- One pass of the level loop of `getValueAtTime` for `k` with `dz[k] = dzk`: the pair
`(s_z[k], good_z[k])`. -/
def levelAvg (W : Averager) (d : Dataset) (s : NCState) (t : Nat) (eta_index xi_index : Arr4 Nat)
    (dist : Arr4 ℚ) (vals : Field4) (k : Int) (dzk : ℚ) : Option (ℚ × Int) :=
  if dzk ≠ -1 then
    match cornerAt d s t vals k eta_index.a0 xi_index.a0,
          cornerAt d s t vals k eta_index.a1 xi_index.a1,
          cornerAt d s t vals k eta_index.a2 xi_index.a2,
          cornerAt d s t vals k eta_index.a3 xi_index.a3 with
    | some c0, some c1, some c2, some c3 =>
      some (W [c0.1, c1.1, c2.1, c3.1] dist.toList [c0.2, c1.2, c2.2, c3.2] 4, 1)
    | _, _, _, _ => none
  else some (0, 0)

/-- The function `NCData::getValueAtTime`. -/
def getValueAtTime (W : Averager) (d : Dataset) (s : NCState) (t : Nat)
    (eta_index xi_index : Arr4 Nat) (dist : Arr4 ℚ) (vals : Field4) : Option ℚ :=
  match levelAvg W d s t eta_index xi_index dist vals 0 s.dist_sigma,
        levelAvg W d s t eta_index xi_index dist vals 1 s.dist_sp1 with
  | some z0, some z1 => some (W [z0.1, z1.1] [s.dist_sigma, s.dist_sp1] [z0.2, z1.2] 2)
  | _, _ => none

/-- The function `NCData::calcValue`: the returned value and the state (the branch without
a next time step sets `time_message_posted`). -/
def calcValue (W : Averager) (d : Dataset) (s : NCState) (eta_index xi_index : Arr4 Nat)
    (dist : Arr4 ℚ) (vals : Field4) : Option (ℚ × NCState) :=
  if s.more_time then
    match getValueAtTime W d s s.time_step eta_index xi_index dist vals,
          getValueAtTime W d s (s.time_step + 1) eta_index xi_index dist vals with
    | some val1, some val2 =>
      if val1 = bad_val ∨ val2 = bad_val then some (bad_val, s)
      else some (W [val1, val2] [s.time_since, s.time_until] [1, 1] 2, s)
    | _, _ => none
  else
    match getValueAtTime W d s s.time_step eta_index xi_index dist vals with
    | none => none
    | some value => some (value, { s with time_message_posted := true })

/-- The function `NCData::GetBathy`. -/
def GetBathy (W : Averager) (d : Dataset) (s : NCState) : Option NCState :=
  match d.bathy.read s.eta_rho_index.a0 s.xi_rho_index.a0,
        d.bathy.read s.eta_rho_index.a1 s.xi_rho_index.a1,
        d.bathy.read s.eta_rho_index.a2 s.xi_rho_index.a2,
        d.bathy.read s.eta_rho_index.a3 s.xi_rho_index.a3 with
  | some b0, some b1, some b2, some b3 =>
    some { s with floor_depth := W [b0, b1, b2, b3] s.rho_dist.toList [1, 1, 1, 1] 4 }
  | _, _, _, _ => none

/-! ## Update -/

/-- The part of `Update` after the three neighbour searches: `GetBathy`, the altitude,
`getS_rho`, the three `calcValue` calls and the final test.  Where the value is good the
source has no `return`; the returned value is then `none`. -/
def updateTail (W : Averager) (d : Dataset) (s : NCState) (h : ℚ) : Option (Option Bool × NCState) :=
  match GetBathy W d s with
  | none => none
  | some s1 =>
    let s2 := { s1 with m_altitude := s1.floor_depth - h }
    match getS_rho d s2 h s2.m_altitude with
    | none => none
    | some s3 =>
      match calcValue W d s3 s3.eta_rho_index s3.xi_rho_index s3.rho_dist d.rho_vals with
      | none => none
      | some (v, s4) =>
        let s5 := { s4 with m_value := v }
        match calcValue W d s5 s5.eta_east_index s5.xi_east_index s5.vec_dist d.east_values with
        | none => none
        | some (ve, s6) =>
          let s7 := { s6 with m_east_value := ve }
          match calcValue W d s7 s7.eta_north_index s7.xi_north_index s7.vec_dist
              d.north_values with
          | none => none
          | some (vn, s8) =>
            let s9 := { s8 with m_north_value := vn }
            if s9.m_value = bad_val then some (some false, s9) else some (none, s9)

/-- The function `NCData::Update`: the returned value (`none` where the source returns
nothing) and the state after the call. -/
def Update (sqrt : ℚ → ℚ) (W : Averager) (d : Dataset) (s : NCState) (x y h time : ℚ) :
    Option (Option Bool × NCState) :=
  match getTimeInfo d s time with
  | none => none
  | some s1 =>
    match XYtoIndex sqrt x y d.rho with
    | none => none
    | some (ok_rho, r) =>
      let s2 := { s1 with eta_rho_index := r.l_eta, xi_rho_index := r.l_xi, rho_dist := r.l_dist }
      if !ok_rho then some (some false, s2)
      else
        match XYtoIndex sqrt x y d.vec with
        | none => none
        | some (ok_east, e) =>
          let s3 := { s2 with eta_east_index := e.l_eta, xi_east_index := e.l_xi,
                              vec_dist := e.l_dist }
          if !ok_east then some (some false, s3)
          else
            match XYtoIndex sqrt x y d.vec with
            | none => none
            | some (ok_north, n) =>
              let s4 := { s3 with eta_north_index := n.l_eta, xi_north_index := n.l_xi,
                                  vec_dist := n.l_dist }
              if !ok_north then some (some false, s4)
              else updateTail W d s4 h

/-- The accessor `GetValue`. -/
def GetValue (s : NCState) : ℚ := s.m_value

/-- The accessor `GetAltitude`. -/
def GetAltitude (s : NCState) : ℚ := s.m_altitude

/-- The accessor `GetFloorDepth`. -/
def GetFloorDepth (s : NCState) : ℚ := s.floor_depth

/-! ## The helpers that are not part of the sources -/

/-- Modelled from the spec: `WeightedAvg`, declared in `NCData.h` and defined outside the
sources at hand.  The spec's `combine` is the inverse-distance-weighted mean over the first
`n` entries marked valid; without a valid entry it is the bad-value sentinel; a valid entry at
distance zero gives that entry's value (the convention the spec recommends and its
coincident-node property requires). -/
def combine : Averager := fun values weights good n =>
  let entries := ((values.zip (weights.zip good)).take n).filter (fun e => e.2.2 ≠ 0)
  match entries with
  | [] => bad_val
  | _ :: _ =>
    match entries.find? (fun e => e.2.1 = 0) with
    | some e => e.1
    | none =>
      (entries.map (fun e => e.1 / e.2.1)).sum / (entries.map (fun e => 1 / e.2.1)).sum

/-- Newton iteration for the integer square root, `fuel` steps at most. -/
def isqrtIter (n : Nat) : Nat → Nat → Nat
  | 0, g => g
  | fuel + 1, g =>
    if g = 0 then 0
    else if (g + n / g) / 2 < g then isqrtIter n fuel ((g + n / g) / 2) else g

/-- Integer square root by Newton iteration from `n`, with 80 steps of fuel. -/
def isqrt (n : Nat) : Nat := isqrtIter n 80 n

/-- A computable stand-in for the library `sqrt`: the integer square roots of numerator and
denominator.  It is only used to evaluate the functions at concrete inputs, all of whose
distances are rational (`sqrtQ 25 = 5`). -/
def sqrtQ (q : ℚ) : ℚ := (isqrt q.num.toNat : ℚ) / (isqrt q.den : ℚ)

/-! ## Reference notions and concrete inputs -/

/-- The squared planar distances from `(x, y)` to the nodes of all `size_eta × size_xi`
cells of the grid, in row-major order. -/
def allDist2 (x y : ℚ) (g : Grid) : List ℚ :=
  (List.range g.size_eta).flatMap (fun j =>
    (List.range g.size_xi).map (fun i => (g.meters_n j i - y) ^ 2 + (g.meters_e j i - x) ^ 2))

/-- A state as the constructor leaves it, the fields it does not set being zero. -/
def state0 : NCState :=
  { time_step := 0, more_time := false, time_since := 0, time_until := 0,
    time_message_posted := false,
    eta_rho_index := ⟨0, 0, 0, 0⟩, xi_rho_index := ⟨0, 0, 0, 0⟩, rho_dist := ⟨0, 0, 0, 0⟩,
    eta_east_index := ⟨0, 0, 0, 0⟩, xi_east_index := ⟨0, 0, 0, 0⟩,
    eta_north_index := ⟨0, 0, 0, 0⟩, xi_north_index := ⟨0, 0, 0, 0⟩, vec_dist := ⟨0, 0, 0, 0⟩,
    floor_depth := 0, m_altitude := 0, s_level := 0, dist_sigma := 0, dist_sp1 := 0,
    m_value := 0, m_east_value := 0, m_north_value := 0 }

/-- A grid of 2 rows and 3 columns: nodes `(e, n)` at `(0,0) (6,0) (3,0)` in row 0 and
`(0,8) (6,8) (3,8)` in row 1. -/
def grid23 : Grid :=
  { size_eta := 2, size_xi := 3
    meters_e := fun _ i => if i = 0 then 0 else if i = 1 then 6 else 3
    meters_n := fun j _ => if j = 0 then 0 else 8 }

/-- A grid of 2 rows and 2 columns: nodes `(e, n)` at `(0,0) (6,0)` and `(0,8) (6,8)`. -/
def grid22 : Grid :=
  { size_eta := 2, size_xi := 2
    meters_e := fun _ i => if i = 0 then 0 else 6
    meters_n := fun j _ => if j = 0 then 0 else 8 }

/-- A grid of 2 rows and 1 column whose two nodes are `(300000, 0)` and `(300000, 8)`. -/
def grid21 : Grid :=
  { size_eta := 2, size_xi := 1
    meters_e := fun _ _ => 300000
    meters_n := fun j _ => if j = 0 then 0 else 8 }

/-- A field on a 2 × 2 grid with `nt` time steps and `ns` levels. -/
def field22 (nt ns : Nat) (f : Nat → Nat → Nat → Nat → ℚ) : Field4 :=
  { nt := nt, ns := ns, neta := 2, nxi := 2, v := f }

/-- A dataset on `grid22`: all cells water, bathymetry 5, three sigma levels, one time
step, scalar values 1, 2, 3, 4 at the four nodes on every level. -/
def demo : Dataset :=
  { rho := grid22, vec := grid22
    mask_rho := { size_eta := 2, size_xi := 2, cell := fun _ _ => true }
    bathy := { size_eta := 2, size_xi := 2, cell := fun _ _ => 5 }
    s_values := [-1, -1/2, 0]
    time := [0]
    rho_vals := field22 1 3 (fun _ _ j i => 1 + 2 * j + i)
    east_values := field22 1 3 (fun _ _ _ _ => 7)
    north_values := field22 1 3 (fun _ _ _ _ => 9) }

/-- The dataset `demo` with the far-away 2 × 1 grid `grid21` as its rho grid. -/
def demoFar : Dataset := { demo with rho := grid21 }

/-- All nodes of the grid are at distance `chk_dist` or more from `(x, y)`. -/
def FarFrom (x y : ℚ) (g : Grid) : Prop :=
  ∀ j, j < g.size_eta → ∀ i, i < g.size_xi →
    chk_dist ^ 2 ≤ (g.meters_n j i - y) ^ 2 + (g.meters_e j i - x) ^ 2

/-- A state that holds the result of an earlier query. -/
def statePrev : NCState :=
  { state0 with floor_depth := 5, m_altitude := 3, m_value := 5 / 2, m_east_value := 7,
                m_north_value := 9 }

/-- The dataset `demo` whose stored scalar values all equal the sentinel -1. -/
def demoBad : Dataset := { demo with rho_vals := field22 1 3 (fun _ _ _ _ => -1) }

/-- The dataset `demo` with the time axis `[0, 10]`; the scalar field is -1 everywhere at
the first time step and 3 everywhere at the second. -/
def demoTwo : Dataset :=
  { demo with time := [0, 10]
              rho_vals := field22 2 3 (fun t _ _ _ => if t = 0 then -1 else 3)
              east_values := field22 2 3 (fun _ _ _ _ => 7)
              north_values := field22 2 3 (fun _ _ _ _ => 9) }

/-- The dataset `demo` with five sigma levels whose physical depths are 2.2, 1.7, 1.2, 0.7
and 0.2 under a floor depth of 10. -/
def demoFive : Dataset :=
  { demo with s_values := [-22 / 100, -17 / 100, -12 / 100, -7 / 100, -2 / 100] }

/-- A state in the middle of a query at time 4 on `demoTwo`: the time bracket, the four
rho neighbours of `(3, 4)` and the vertical bracket of depth 2 are set. -/
def stateMid : NCState :=
  { state0 with more_time := true, time_since := 4, time_until := 6,
                eta_rho_index := ⟨0, 0, 1, 1⟩, xi_rho_index := ⟨0, 1, 0, 1⟩,
                rho_dist := ⟨5, 5, 5, 5⟩, floor_depth := 5, m_altitude := 3,
                s_level := 1, dist_sigma := 1 / 2, dist_sp1 := 2 }

/-- The state `Update(3, 4, 2, 0)` leaves on `demoBad`, starting from `state0`. -/
def stateBadFinal : NCState :=
  { time_step := 0, more_time := false, time_since := 0, time_until := 0,
    time_message_posted := true,
    eta_rho_index := ⟨0, 0, 1, 1⟩, xi_rho_index := ⟨0, 1, 0, 1⟩, rho_dist := ⟨5, 5, 5, 5⟩,
    eta_east_index := ⟨0, 0, 1, 1⟩, xi_east_index := ⟨0, 1, 0, 1⟩,
    eta_north_index := ⟨0, 0, 1, 1⟩, xi_north_index := ⟨0, 1, 0, 1⟩, vec_dist := ⟨5, 5, 5, 5⟩,
    floor_depth := 5, m_altitude := 3, s_level := 1, dist_sigma := 1 / 2, dist_sp1 := 2,
    m_value := -1, m_east_value := 7, m_north_value := 9 }

/-- The initialisation loop of `XYtoIndex` with the search radius `chk_dist` as a
parameter `R`. -/
def nearInitR (R : ℚ) : Near :=
  { l_eta := ⟨0, 0, 0, 0⟩, l_xi := ⟨0, 0, 0, 0⟩, l_dist := ⟨R, R, R, R⟩ }

/-- The function `XYtoIndex` with the local `chk_dist` replaced by a parameter `R`: the
same scan, started from `nearInitR R`, and the same final test against `R`. -/
def XYtoIndexR (sqrt : ℚ → ℚ) (R x y : ℚ) (g : Grid) : Option (Bool × Near) :=
  match scanGrid sqrt x y g (List.range g.size_eta) (nearInitR R) with
  | none => none
  | some l =>
    if l.l_dist.a0 = R ∨ l.l_dist.a1 = R ∨ l.l_dist.a2 = R ∨ l.l_dist.a3 = R then
      some (false, { l with l_eta := ⟨0, 0, 0, 0⟩, l_xi := ⟨0, 0, 0, 0⟩ })
    else some (true, l)

/-- A sequence of `getTimeInfo` calls on one engine, one per query time, the state of each
call being the state the previous call left. -/
def getTimeInfoSeq (d : Dataset) : NCState → List ℚ → Option NCState
  | s, [] => some s
  | s, q :: qs =>
    match getTimeInfo d s q with
    | none => none
    | some s1 => getTimeInfoSeq d s1 qs

/-- The land-mask-aware horizontal average of the four corners taken at the level `level`
of time step `t`: a corner on land counts as invalid with the value -1, a corner on water
holds `vals[t][level][eta][xi]`, and `WeightedAvg` combines the four with the planar
distances as weights. -/
def horizontalAvg (W : Averager) (d : Dataset) (t : Nat) (level : Int)
    (eta_index xi_index : Arr4 Nat) (dist : Arr4 ℚ) (vals : Field4) : Option ℚ :=
  let corner := fun (j i : Nat) =>
    match d.mask_rho.read j i with
    | none => (none : Option (ℚ × Int))
    | some water =>
      if water then (vals.read t level j i).map (fun v => (v, (1 : Int)))
      else some (-1, 0)
  match corner eta_index.a0 xi_index.a0, corner eta_index.a1 xi_index.a1,
        corner eta_index.a2 xi_index.a2, corner eta_index.a3 xi_index.a3 with
  | some c0, some c1, some c2, some c3 =>
    some (W [c0.1, c1.1, c2.1, c3.1] dist.toList [c0.2, c1.2, c2.2, c3.2] 4)
  | _, _, _, _ => none

/-- A regular grid: node `(j, i)` lies at easting `de * i` and northing `dn * j`. -/
def regularGrid (size_eta size_xi : Nat) (de dn : ℚ) : Grid :=
  { size_eta := size_eta, size_xi := size_xi
    meters_e := fun _ i => de * i
    meters_n := fun j _ => dn * j }

/-- Scenario A of the spec with the single sigma value `sigma`: a 2 × 2 rho grid at
`(0,0) (10,0) (0,10) (10,10)`, one time step, one sigma level, all cells water, bathymetry 5
and the scalar values 1, 2, 3, 4 at the four nodes. -/
def scenarioA (sigma : ℚ) : Dataset :=
  { rho := regularGrid 2 2 10 10, vec := regularGrid 2 2 10 10
    mask_rho := { size_eta := 2, size_xi := 2, cell := fun _ _ => true }
    bathy := { size_eta := 2, size_xi := 2, cell := fun _ _ => 5 }
    s_values := [sigma]
    time := [0]
    rho_vals := field22 1 1 (fun _ _ j i => 1 + 2 * j + i)
    east_values := field22 1 1 (fun _ _ _ _ => 0)
    north_values := field22 1 1 (fun _ _ _ _ => 0) }

/-- A grid of 2 rows and 3 columns: nodes `(e, n)` at `(0,0) (6,0) (3,0)` in row 0 and
`(0,4) (6,4) (3,4)` in row 1. -/
def grid23b : Grid :=
  { size_eta := 2, size_xi := 3
    meters_e := fun _ i => if i = 0 then 0 else if i = 1 then 6 else 3
    meters_n := fun j _ => if j = 0 then 0 else 4 }

/-- The dataset `demo` with the time axis `[0, 10, 20]`. -/
def demoThree : Dataset :=
  { demo with time := [0, 10, 20]
              rho_vals := field22 3 3 (fun _ _ j i => 1 + 2 * j + i)
              east_values := field22 3 3 (fun _ _ _ _ => 7)
              north_values := field22 3 3 (fun _ _ _ _ => 9) }

/-- The library `sqrt` is exact at the squared distances from `(x, y)` to the nodes of the
grid: its value is not negative and its square is the squared distance. -/
def ExactSqrtOn (sqrt : ℚ → ℚ) (x y : ℚ) (g : Grid) : Prop :=
  ∀ j i, j < g.size_eta → i < g.size_xi →
    0 ≤ sqrt ((g.meters_n j i - y) ^ 2 + (g.meters_e j i - x) ^ 2)
      ∧ sqrt ((g.meters_n j i - y) ^ 2 + (g.meters_e j i - x) ^ 2) ^ 2
          = (g.meters_n j i - y) ^ 2 + (g.meters_e j i - x) ^ 2

/-- The four distances are not negative and in ascending order. -/
def Ascending (a : Arr4 ℚ) : Prop := 0 ≤ a.a0 ∧ a.a0 ≤ a.a1 ∧ a.a1 ≤ a.a2 ∧ a.a2 ≤ a.a3

/-- Slot 0 at distance zero holds the index of a grid node located at `(x, y)`. -/
def ZeroIsNode (x y : ℚ) (g : Grid) (l : Near) : Prop :=
  l.l_dist.a0 = 0 →
    l.l_eta.a0 < g.size_eta ∧ l.l_xi.a0 < g.size_xi
      ∧ g.meters_e l.l_eta.a0 l.l_xi.a0 = x ∧ g.meters_n l.l_eta.a0 l.l_xi.a0 = y

/-- A slot `(dist, eta, xi)` of the search with sentinel distance `R`, given the cells `V`
visited so far: unless its distance is the sentinel, the slot holds a visited cell of the
grid and `sqrt` of that cell's squared distance to `(x, y)`. -/
def SlotOK (sqrt : ℚ → ℚ) (R x y : ℚ) (g : Grid) (V : Nat → Nat → Prop)
    (dist : ℚ) (eta xi : Nat) : Prop :=
  dist ≠ R →
    V eta xi ∧ eta < g.size_eta ∧ xi < g.size_xi
      ∧ dist = sqrt ((g.meters_n eta xi - y) ^ 2 + (g.meters_e eta xi - x) ^ 2)

/-- Two slots whose distances are not the sentinel hold different cells. -/
def SlotsApart (R d1 : ℚ) (e1 x1 : Nat) (d2 : ℚ) (e2 x2 : Nat) : Prop :=
  d1 ≠ R → d2 ≠ R → ¬ (e1 = e2 ∧ x1 = x2)

/-- The invariant of the scan: every slot is `SlotOK` and the slots are pairwise apart. -/
def SlotsInv (sqrt : ℚ → ℚ) (R x y : ℚ) (g : Grid) (V : Nat → Nat → Prop) (l : Near) : Prop :=
  SlotOK sqrt R x y g V l.l_dist.a0 l.l_eta.a0 l.l_xi.a0
    ∧ SlotOK sqrt R x y g V l.l_dist.a1 l.l_eta.a1 l.l_xi.a1
    ∧ SlotOK sqrt R x y g V l.l_dist.a2 l.l_eta.a2 l.l_xi.a2
    ∧ SlotOK sqrt R x y g V l.l_dist.a3 l.l_eta.a3 l.l_xi.a3
    ∧ SlotsApart R l.l_dist.a0 l.l_eta.a0 l.l_xi.a0 l.l_dist.a1 l.l_eta.a1 l.l_xi.a1
    ∧ SlotsApart R l.l_dist.a0 l.l_eta.a0 l.l_xi.a0 l.l_dist.a2 l.l_eta.a2 l.l_xi.a2
    ∧ SlotsApart R l.l_dist.a0 l.l_eta.a0 l.l_xi.a0 l.l_dist.a3 l.l_eta.a3 l.l_xi.a3
    ∧ SlotsApart R l.l_dist.a1 l.l_eta.a1 l.l_xi.a1 l.l_dist.a2 l.l_eta.a2 l.l_xi.a2
    ∧ SlotsApart R l.l_dist.a1 l.l_eta.a1 l.l_xi.a1 l.l_dist.a3 l.l_eta.a3 l.l_xi.a3
    ∧ SlotsApart R l.l_dist.a2 l.l_eta.a2 l.l_xi.a2 l.l_dist.a3 l.l_eta.a3 l.l_xi.a3

/-- A returned slot `(dist, eta, xi)` is true to the grid: `(eta, xi)` is a cell of the
grid in a scanned row and a scanned column, and `dist` is `sqrt` of the squared distance
from `(x, y)` to the node of that cell. -/
def SlotTrue (sqrt : ℚ → ℚ) (x y : ℚ) (g : Grid) (dist : ℚ) (eta xi : Nat) : Prop :=
  eta < g.size_eta ∧ xi < g.size_eta ∧ xi < g.size_xi
    ∧ dist = sqrt ((g.meters_n eta xi - y) ^ 2 + (g.meters_e eta xi - x) ^ 2)

/-- The four returned slots are true to the grid and hold pairwise different cells. -/
def SelfConsistent (sqrt : ℚ → ℚ) (x y : ℚ) (g : Grid) (l : Near) : Prop :=
  SlotTrue sqrt x y g l.l_dist.a0 l.l_eta.a0 l.l_xi.a0
    ∧ SlotTrue sqrt x y g l.l_dist.a1 l.l_eta.a1 l.l_xi.a1
    ∧ SlotTrue sqrt x y g l.l_dist.a2 l.l_eta.a2 l.l_xi.a2
    ∧ SlotTrue sqrt x y g l.l_dist.a3 l.l_eta.a3 l.l_xi.a3
    ∧ ¬ (l.l_eta.a0 = l.l_eta.a1 ∧ l.l_xi.a0 = l.l_xi.a1)
    ∧ ¬ (l.l_eta.a0 = l.l_eta.a2 ∧ l.l_xi.a0 = l.l_xi.a2)
    ∧ ¬ (l.l_eta.a0 = l.l_eta.a3 ∧ l.l_xi.a0 = l.l_xi.a3)
    ∧ ¬ (l.l_eta.a1 = l.l_eta.a2 ∧ l.l_xi.a1 = l.l_xi.a2)
    ∧ ¬ (l.l_eta.a1 = l.l_eta.a3 ∧ l.l_xi.a1 = l.l_xi.a3)
    ∧ ¬ (l.l_eta.a2 = l.l_eta.a3 ∧ l.l_xi.a2 = l.l_xi.a3)

/-! ## Lists -/

theorem pairwise_lt_getElem? {l : List ℚ} (hl : l.Pairwise (fun a b => a < b)) :
    ∀ (i j : Nat) (a b : ℚ), i < j → l[i]? = some a → l[j]? = some b → a < b := by
  induction l with
  | nil => intro i j a b _ hi; simp at hi
  | cons x xs ih =>
    intro i j a b hij hi hj
    rw [List.pairwise_cons] at hl
    cases j with
    | zero => omega
    | succ j =>
      rw [List.getElem?_cons_succ] at hj
      cases i with
      | zero =>
        simp only [List.getElem?_cons_zero, Option.some.injEq] at hi
        subst hi
        exact hl.1 b (List.getElem?_mem hj)
      | succ i =>
        rw [List.getElem?_cons_succ] at hi
        exact ih hl.2 i j a b (by omega) hi hj

theorem getElem?_isSome_of_lt {l : List ℚ} {i : Nat} (h : i < l.length) : ∃ t, l[i]? = some t :=
  ⟨l[i], List.getElem?_eq_getElem h⟩

theorem lt_length_of_getElem? {l : List ℚ} {i : Nat} {t : ℚ} (h : l[i]? = some t) :
    i < l.length := by
  by_contra hc
  rw [List.getElem?_eq_none (not_lt.mp hc)] at h
  exact absurd h (by simp)

/-! ## XYtoIndex: the cells that are scanned -/

/-- C1: on the 2 × 3 grid `grid23` and the query point `(3, 4)` the search returns true
with the four distances 5, 5, 5, 5 (cells of columns 0 and 1), although the cell `(0, 2)` of
the grid lies at distance 4: the four smallest squared distances over all cells are
16, 16, 25, 25. -/
theorem C1_XYtoIndex_misses_columns :
    XYtoIndex sqrtQ 3 4 grid23
        = some (true, { l_eta := ⟨0, 0, 1, 1⟩, l_xi := ⟨0, 1, 0, 1⟩, l_dist := ⟨5, 5, 5, 5⟩ })
      ∧ ((allDist2 3 4 grid23).insertionSort (fun a b => a ≤ b)).take 4 = [16, 16, 25, 25]
      ∧ (grid23.meters_n 0 2 - 4) ^ 2 + (grid23.meters_e 0 2 - 3) ^ 2 = 4 ^ 2 := by
  decide!

/-- C2: on the 2 × 1 grid `grid21`, whose nodes are farther than 100000 from the query
point `(0, 0)`, the scan reads column 1 of a one-column row: neither `XYtoIndex` nor
`Update` has a defined result. -/
theorem C2_XYtoIndex_reads_past_row :
    XYtoIndex sqrtQ 0 0 grid21 = none
      ∧ (getTimeInfo demoFar state0 0).isSome = true
      ∧ Update sqrtQ combine demoFar state0 0 0 2 0 = none
      ∧ (∀ j, j < grid21.size_eta → ∀ i, i < grid21.size_xi →
          chk_dist ^ 2 ≤ (grid21.meters_n j i - 0) ^ 2 + (grid21.meters_e j i - 0) ^ 2) := by
  decide!

/-- A node at distance `chk_dist` or more never enters slot 0. -/
theorem xyStep_far_a0 (sqrt : ℚ → ℚ) (x y n e : ℚ) (j i : Nat) (l : Near)
    (hfar : chk_dist ^ 2 ≤ (n - y) ^ 2 + (e - x) ^ 2) (h0 : l.l_dist.a0 = chk_dist) :
    (xyStep sqrt x y n e j i l).l_dist.a0 = chk_dist := by
  have hno : ¬ ((n - y) ^ 2 + (e - x) ^ 2 < l.l_dist.a0 ^ 2) := by
    rw [h0]; exact not_lt.mpr hfar
  unfold xyStep
  rw [if_neg hno]
  split_ifs <;> exact h0

/-- Scanning a row of far nodes is defined and leaves slot 0 at `chk_dist`. -/
theorem scanRow_far (sqrt : ℚ → ℚ) (x y : ℚ) (g : Grid) (j : Nat) (hj : j < g.size_eta)
    (hfar : FarFrom x y g) :
    ∀ (is : List Nat) (l : Near), (∀ i ∈ is, i < g.size_xi) → l.l_dist.a0 = chk_dist →
      ∃ l1, scanRow sqrt x y g j is l = some l1 ∧ l1.l_dist.a0 = chk_dist := by
  intro is
  induction is with
  | nil => intro l _ h0; exact ⟨l, rfl, h0⟩
  | cons i is ih =>
    intro l hin h0
    have hi : i < g.size_xi := hin i (List.mem_cons_self i is)
    have hread : g.read j i = some (g.meters_n j i, g.meters_e j i) := by
      unfold Grid.read; rw [if_pos ⟨hj, hi⟩]
    simp only [scanRow, hread]
    exact ih _ (fun k hk => hin k (List.mem_cons_of_mem i hk))
      (xyStep_far_a0 sqrt x y _ _ j i l (hfar j hj i hi) h0)

/-- Scanning a grid of far nodes with no more rows than columns is defined and leaves
slot 0 at `chk_dist`. -/
theorem scanGrid_far (sqrt : ℚ → ℚ) (x y : ℚ) (g : Grid) (hsq : g.size_eta ≤ g.size_xi)
    (hfar : FarFrom x y g) :
    ∀ (js : List Nat) (l : Near), (∀ j ∈ js, j < g.size_eta) → l.l_dist.a0 = chk_dist →
      ∃ l1, scanGrid sqrt x y g js l = some l1 ∧ l1.l_dist.a0 = chk_dist := by
  intro js
  induction js with
  | nil => intro l _ h0; exact ⟨l, rfl, h0⟩
  | cons j js ih =>
    intro l hin h0
    have hj : j < g.size_eta := hin j (List.mem_cons_self j js)
    obtain ⟨l1, hrow, h1⟩ := scanRow_far sqrt x y g j hj hfar (List.range g.size_eta) l
      (fun i hi => lt_of_lt_of_le (List.mem_range.mp hi) hsq) h0
    simp only [scanGrid, hrow]
    exact ih l1 (fun k hk => hin k (List.mem_cons_of_mem j hk)) h1

/-- On a grid with no more rows than columns, a query point at distance `chk_dist` or more
from every node makes `XYtoIndex` return false. -/
theorem XYtoIndex_far_false (sqrt : ℚ → ℚ) (x y : ℚ) (g : Grid) (hsq : g.size_eta ≤ g.size_xi)
    (hfar : FarFrom x y g) :
    ∃ l, XYtoIndex sqrt x y g = some (false, l) := by
  obtain ⟨l1, hscan, h1⟩ := scanGrid_far sqrt x y g hsq hfar (List.range g.size_eta) nearInit
    (fun j hj => List.mem_range.mp hj) rfl
  refine ⟨{ l1 with l_eta := ⟨0, 0, 0, 0⟩, l_xi := ⟨0, 0, 0, 0⟩ }, ?_⟩
  unfold XYtoIndex
  simp only [hscan]
  rw [if_pos (Or.inl h1)]

/-- With such a rho grid, `Update` returns false whenever `getTimeInfo` is defined. -/
theorem Update_far_false (sqrt : ℚ → ℚ) (W : Averager) (d : Dataset) (s s1 : NCState)
    (x y h t : ℚ) (hsq : d.rho.size_eta ≤ d.rho.size_xi) (hfar : FarFrom x y d.rho)
    (hT : getTimeInfo d s t = some s1) :
    ∃ s2, Update sqrt W d s x y h t = some (some false, s2) := by
  obtain ⟨l, hl⟩ := XYtoIndex_far_false sqrt x y d.rho hsq hfar
  unfold Update
  simp only [hT, hl]
  exact ⟨_, rfl⟩

/-! ## Update -/

/-- C3: on the dataset `demo` the query `Update(3, 4, 2, 0)` passes the three neighbour
searches and computes the value 5/2, which is not the sentinel; the call ends without a
returned value. -/
theorem C3_Update_good_value_returns_nothing :
    (XYtoIndex sqrtQ 3 4 demo.rho).map Prod.fst = some true
      ∧ (XYtoIndex sqrtQ 3 4 demo.vec).map Prod.fst = some true
      ∧ (Update sqrtQ combine demo state0 3 4 2 0).map (fun r => (r.1, r.2.m_value))
          = some (none, 5 / 2)
      ∧ (5 / 2 : ℚ) ≠ bad_val := by
  decide!

/-- The only field `calcValue` may change is `time_message_posted`. -/
theorem calcValue_state (W : Averager) (d : Dataset) (s s1 : NCState) (eta_index xi_index : Arr4 Nat)
    (dist : Arr4 ℚ) (vals : Field4) (v : ℚ)
    (hC : calcValue W d s eta_index xi_index dist vals = some (v, s1)) :
    s1 = s ∨ s1 = { s with time_message_posted := true } := by
  unfold calcValue at hC
  split at hC
  · split at hC
    · split at hC
      · simp only [Option.some.injEq, Prod.mk.injEq] at hC; exact Or.inl hC.2.symm
      · simp only [Option.some.injEq, Prod.mk.injEq] at hC; exact Or.inl hC.2.symm
    · exact absurd hC (by simp)
  · split at hC
    · exact absurd hC (by simp)
    · simp only [Option.some.injEq, Prod.mk.injEq] at hC; exact Or.inr hC.2.symm

/-- The call `calcValue` keeps `m_value`. -/
theorem calcValue_m_value (W : Averager) (d : Dataset) (s s1 : NCState) (eta_index xi_index : Arr4 Nat)
    (dist : Arr4 ℚ) (vals : Field4) (v : ℚ)
    (hC : calcValue W d s eta_index xi_index dist vals = some (v, s1)) :
    s1.m_value = s.m_value := by
  rcases calcValue_state W d s s1 eta_index xi_index dist vals v hC with h | h <;> rw [h]

/-- The returned value of `updateTail` and the origin of `m_value`. -/
theorem updateTail_result (W : Averager) (d : Dataset) (s s1 : NCState) (h : ℚ)
    (r : Option Bool) (hU : updateTail W d s h = some (r, s1)) :
    (∃ s3 s4, calcValue W d s3 s3.eta_rho_index s3.xi_rho_index s3.rho_dist d.rho_vals
        = some (s1.m_value, s4))
      ∧ (s1.m_value = bad_val → r = some false)
      ∧ (s1.m_value ≠ bad_val → r = none) := by
  unfold updateTail at hU
  cases hB : GetBathy W d s with
  | none => simp [hB] at hU
  | some sB =>
    simp only [hB] at hU
    cases hS : getS_rho d { sB with m_altitude := sB.floor_depth - h } h (sB.floor_depth - h) with
    | none => simp [hS] at hU
    | some sC =>
      simp only [hS] at hU
      cases hV : calcValue W d sC sC.eta_rho_index sC.xi_rho_index sC.rho_dist d.rho_vals with
      | none => simp [hV] at hU
      | some p =>
        obtain ⟨v, sD⟩ := p
        simp only [hV] at hU
        cases hE : calcValue W d { sD with m_value := v } sD.eta_east_index sD.xi_east_index
            sD.vec_dist d.east_values with
        | none => simp [hE] at hU
        | some pe =>
          obtain ⟨ve, sE⟩ := pe
          simp only [hE] at hU
          cases hN : calcValue W d { sE with m_east_value := ve } sE.eta_north_index
              sE.xi_north_index sE.vec_dist d.north_values with
          | none => simp [hN] at hU
          | some pn =>
            obtain ⟨vn, sF⟩ := pn
            simp only [hN] at hU
            have hmE : sE.m_value = v := calcValue_m_value W d _ sE _ _ _ _ ve hE
            have hmF : sF.m_value = v := by
              rw [calcValue_m_value W d _ sF _ _ _ _ vn hN]; exact hmE
            by_cases hbad : v = bad_val
            · simp only [hmF, hbad, if_true, Option.some.injEq, Prod.mk.injEq] at hU
              obtain ⟨hr, hs⟩ := hU
              subst hs
              refine ⟨⟨sC, sD, ?_⟩, fun _ => hr.symm, fun hne => absurd ?_ hne⟩
              · rw [hV]; simp [hmF, hbad]
              · simp [hmF]
            · simp only [hmF, hbad, if_false, Option.some.injEq, Prod.mk.injEq] at hU
              obtain ⟨hr, hs⟩ := hU
              subst hs
              refine ⟨⟨sC, sD, ?_⟩, fun hb => absurd ?_ hbad, fun _ => hr.symm⟩
              · rw [hV]
              · rw [← hb]

/-- The call `getTimeInfo` keeps the result fields. -/
theorem getTimeInfo_results (d : Dataset) (s s1 : NCState) (t : ℚ)
    (hT : getTimeInfo d s t = some s1) :
    s1.m_value = s.m_value ∧ s1.m_east_value = s.m_east_value
      ∧ s1.m_north_value = s.m_north_value ∧ s1.m_altitude = s.m_altitude
      ∧ s1.floor_depth = s.floor_depth := by
  unfold getTimeInfo at hT
  simp only at hT
  split at hT
  · exact absurd hT (by simp)
  · split at hT
    · simp only [Option.some.injEq] at hT; subst hT; simp
    · split at hT
      · simp only [Option.some.injEq] at hT; subst hT; simp
      · exact absurd hT (by simp)

/-- No call of `Update` returns true: a failed search returns false, a bad value returns
false, and the remaining path returns nothing. -/
theorem Update_never_returns_true (sqrt : ℚ → ℚ) (W : Averager) (d : Dataset)
    (s s1 : NCState) (x y h t : ℚ) (r : Option Bool)
    (hU : Update sqrt W d s x y h t = some (r, s1)) : r ≠ some true := by
  unfold Update at hU
  cases hT : getTimeInfo d s t with
  | none => simp [hT] at hU
  | some sT =>
    simp only [hT] at hU
    cases hR : XYtoIndex sqrt x y d.rho with
    | none => simp [hR] at hU
    | some p =>
      obtain ⟨ok, l⟩ := p
      simp only [hR] at hU
      cases ok with
      | false =>
        simp only [Bool.not_false, if_true, Option.some.injEq, Prod.mk.injEq] at hU
        rw [← hU.1]; simp
      | true =>
        simp only [Bool.not_true, Bool.false_eq_true, if_false] at hU
        cases hE : XYtoIndex sqrt x y d.vec with
        | none => simp [hE] at hU
        | some q =>
          obtain ⟨ok1, l1⟩ := q
          simp only [hE] at hU
          cases ok1 with
          | false =>
            simp only [Bool.not_false, if_true, Option.some.injEq, Prod.mk.injEq] at hU
            rw [← hU.1]; simp
          | true =>
            simp only [Bool.not_true, Bool.false_eq_true, if_false] at hU
            obtain ⟨_, hbad, hgood⟩ := updateTail_result W d _ s1 h r hU
            by_cases hv : s1.m_value = bad_val
            · rw [hbad hv]; simp
            · rw [hgood hv]; simp

/-- C4: whenever a call of `Update` passes its neighbour searches and is defined, the field
`m_value` it leaves is the value `calcValue` returned on the rho field, and if that value is
the sentinel `bad_val` the call returns false, whatever `calcValue` gave for the east and
north fields. -/
theorem C4_bad_scalar_returns_false (sqrt : ℚ → ℚ) (W : Averager) (d : Dataset)
    (s s1 : NCState) (x y h t : ℚ) (r : Option Bool)
    (hU : Update sqrt W d s x y h t = some (r, s1))
    (hrho : (XYtoIndex sqrt x y d.rho).map Prod.fst = some true)
    (hvec : (XYtoIndex sqrt x y d.vec).map Prod.fst = some true) :
    (∃ s3 s4, calcValue W d s3 s3.eta_rho_index s3.xi_rho_index s3.rho_dist d.rho_vals
        = some (s1.m_value, s4))
      ∧ (s1.m_value = bad_val → r = some false) := by
  unfold Update at hU
  cases hT : getTimeInfo d s t with
  | none => simp [hT] at hU
  | some sT =>
    cases hR : XYtoIndex sqrt x y d.rho with
    | none => simp [hR] at hrho
    | some p =>
      obtain ⟨ok, l⟩ := p
      cases hE : XYtoIndex sqrt x y d.vec with
      | none => simp [hE] at hvec
      | some q =>
        obtain ⟨ok1, l1⟩ := q
        simp only [hR, Option.map_some', Option.some.injEq] at hrho
        simp only [hE, Option.map_some', Option.some.injEq] at hvec
        subst hrho
        subst hvec
        simp only [hT, hR, hE, Bool.not_true, Bool.false_eq_true, if_false] at hU
        have hres := updateTail_result W d _ s1 h r hU
        exact ⟨hres.1, hres.2.1⟩

/-- C4 on `demoBad`, whose scalar field holds the sentinel while the east and north fields
hold 7 and 9: `Update(3, 4, 2, 0)` returns false. -/
theorem C4_bad_scalar_returns_false_witness :
    Update sqrtQ combine demoBad state0 3 4 2 0 = some (some false, stateBadFinal)
      ∧ (XYtoIndex sqrtQ 3 4 demoBad.rho).map Prod.fst = some true
      ∧ (XYtoIndex sqrtQ 3 4 demoBad.vec).map Prod.fst = some true
      ∧ stateBadFinal.m_value = bad_val ∧ stateBadFinal.m_east_value = 7
      ∧ stateBadFinal.m_north_value = 9 ∧ (some false : Option Bool) = some false :=
  ⟨by decide!, by decide!, by decide!, by decide!, by decide!, by decide!,
    (C4_bad_scalar_returns_false sqrtQ combine demoBad state0 stateBadFinal 3 4 2 0
      (some false) (by decide!) (by decide!) (by decide!)).2 (by decide!)⟩

/-- C5: if the rho search fails, or the rho search succeeds and the search on the vector
grid fails, `Update` returns false and the fields read by the accessors (`m_value`,
`m_east_value`, `m_north_value`, `m_altitude`, `floor_depth`) are what they were before. -/
theorem C5_failed_search_keeps_result (sqrt : ℚ → ℚ) (W : Averager) (d : Dataset)
    (s sT : NCState) (x y h t : ℚ) (hT : getTimeInfo d s t = some sT)
    (hfail : (XYtoIndex sqrt x y d.rho).map Prod.fst = some false
      ∨ ((XYtoIndex sqrt x y d.rho).map Prod.fst = some true
          ∧ (XYtoIndex sqrt x y d.vec).map Prod.fst = some false)) :
    ∃ s1, Update sqrt W d s x y h t = some (some false, s1)
      ∧ GetValue s1 = GetValue s ∧ s1.m_east_value = s.m_east_value
      ∧ s1.m_north_value = s.m_north_value ∧ GetAltitude s1 = GetAltitude s
      ∧ GetFloorDepth s1 = GetFloorDepth s := by
  have hkeep := getTimeInfo_results d s sT t hT
  unfold Update GetValue GetAltitude GetFloorDepth
  cases hR : XYtoIndex sqrt x y d.rho with
  | none => simp [hR] at hfail
  | some p =>
    obtain ⟨ok, l⟩ := p
    rcases hfail with hf | ⟨hf, hv⟩
    · simp only [hR, Option.map_some', Option.some.injEq] at hf
      subst hf
      simp only [hT, Bool.not_false, if_true]
      exact ⟨_, rfl, hkeep⟩
    · simp only [hR, Option.map_some', Option.some.injEq] at hf
      subst hf
      cases hE : XYtoIndex sqrt x y d.vec with
      | none => simp [hE] at hv
      | some q =>
        obtain ⟨ok1, l1⟩ := q
        simp only [hE, Option.map_some', Option.some.injEq] at hv
        subst hv
        simp only [hT, Bool.not_true, Bool.false_eq_true, if_false, Bool.not_false, if_true]
        exact ⟨_, rfl, hkeep⟩

/-- C5 on `demo` with an earlier result in the state and a query point farther than 100000
from every node. -/
theorem C5_failed_search_keeps_result_witness :
    getTimeInfo demo statePrev 0 = some statePrev
      ∧ (XYtoIndex sqrtQ 300003 4 demo.rho).map Prod.fst = some false
      ∧ ∃ s1, Update sqrtQ combine demo statePrev 300003 4 2 0 = some (some false, s1)
        ∧ GetValue s1 = GetValue statePrev ∧ s1.m_east_value = statePrev.m_east_value
        ∧ s1.m_north_value = statePrev.m_north_value
        ∧ GetAltitude s1 = GetAltitude statePrev
        ∧ GetFloorDepth s1 = GetFloorDepth statePrev :=
  ⟨by decide!, by decide!,
    C5_failed_search_keeps_result sqrtQ combine demo statePrev statePrev 300003 4 2 0
      (by decide!) (Or.inl (by decide!))⟩

/-! ## getTimeInfo -/

/-- The loop of `getTimeInfo` either meets no timestamp below the query time and keeps
`time_step`, or ends at the greatest index whose timestamp is below the query time. -/
theorem timeScan_spec (q : ℚ) :
    ∀ (l : List ℚ) (i ts : Nat),
      (timeScan q l i ts = ts ∧ ∀ (k : Nat) (t : ℚ), l[k]? = some t → ¬ t < q)
      ∨ (i ≤ timeScan q l i ts ∧ (∃ t, l[timeScan q l i ts - i]? = some t ∧ t < q)
          ∧ ∀ (k : Nat) (t : ℚ), l[k]? = some t → t < q → i + k ≤ timeScan q l i ts) := by
  intro l
  induction l with
  | nil =>
    intro i ts
    left
    exact ⟨rfl, fun k t h => by simp at h⟩
  | cons a rest ih =>
    intro i ts
    simp only [timeScan]
    rcases ih (i + 1) (if q > a then i else ts) with ⟨hr, hnone⟩ | ⟨hle, ⟨t, ht, htq⟩, hmax⟩
    · by_cases ha : q > a
      · right
        rw [hr, if_pos ha]
        refine ⟨le_refl i, ⟨a, by simp, ha⟩, ?_⟩
        intro k t hk htq
        cases k with
        | zero => exact le_refl i
        | succ k => exact absurd htq (hnone k t (by simpa using hk))
      · left
        rw [hr, if_neg ha]
        refine ⟨rfl, ?_⟩
        intro k t hk
        cases k with
        | zero =>
          simp only [List.getElem?_cons_zero, Option.some.injEq] at hk
          subst hk; exact ha
        | succ k => exact hnone k t (by simpa using hk)
    · right
      refine ⟨by omega, ⟨t, ?_, htq⟩, ?_⟩
      · have hsub : timeScan q rest (i + 1) (if q > a then i else ts) - i
            = (timeScan q rest (i + 1) (if q > a then i else ts) - (i + 1)) + 1 := by omega
        rw [hsub, List.getElem?_cons_succ]; exact ht
      · intro k t1 hk ht1
        cases k with
        | zero => omega
        | succ k =>
          have := hmax k t1 (by simpa using hk) ht1
          omega

/-- The value `getTimeInfo` leaves in `time_step`, and its other assignments. -/
theorem getTimeInfo_some (d : Dataset) (s s1 : NCState) (q : ℚ)
    (hT : getTimeInfo d s q = some s1) :
    s1.time_step = timeScan q d.time 0 s.time_step
      ∧ ∃ tlast, d.time.getLast? = some tlast
        ∧ (s1.more_time = false ↔ (q > tlast ∨ d.time.length = 1))
        ∧ (s1.more_time = true → ∃ t0 t1, d.time[s1.time_step]? = some t0
            ∧ d.time[s1.time_step + 1]? = some t1
            ∧ s1.time_since = q - t0 ∧ s1.time_until = t1 - q) := by
  unfold getTimeInfo at hT
  simp only at hT
  cases hlast : d.time.getLast? with
  | none => simp [hlast] at hT
  | some tlast =>
    simp only [hlast] at hT
    by_cases hc : q > tlast ∨ d.time.length = 1
    · rw [if_pos hc] at hT
      simp only [Option.some.injEq] at hT
      subst hT
      exact ⟨rfl, tlast, rfl, by simp [hc], by simp⟩
    · rw [if_neg hc] at hT
      cases h0 : d.time[timeScan q d.time 0 s.time_step]? with
      | none => simp [h0] at hT
      | some t0 =>
        cases h1 : d.time[timeScan q d.time 0 s.time_step + 1]? with
        | none => simp [h0, h1] at hT
        | some t1 =>
          simp only [h0, h1, Option.some.injEq] at hT
          subst hT
          exact ⟨rfl, tlast, rfl, by simp [hc], fun _ => ⟨t0, t1, h0, h1, rfl, rfl⟩⟩

/-- The call `getTimeInfo` is defined on a non-empty axis when the `time_step` it starts from
has a successor on the axis, or the axis has one entry. -/
theorem getTimeInfo_defined (d : Dataset) (s : NCState) (q : ℚ) (hne : d.time ≠ [])
    (hs : s.time_step + 1 < d.time.length ∨ d.time.length = 1) :
    ∃ s1, getTimeInfo d s q = some s1 := by
  have hlen : 0 < d.time.length := List.length_pos.mpr hne
  obtain ⟨tlast, hlast⟩ := getElem?_isSome_of_lt (show d.time.length - 1 < d.time.length by omega)
  have hlast1 : d.time.getLast? = some tlast := by rw [List.getLast?_eq_getElem?]; exact hlast
  unfold getTimeInfo
  simp only [hlast1]
  by_cases hc : q > tlast ∨ d.time.length = 1
  · rw [if_pos hc]; exact ⟨_, rfl⟩
  · rw [if_neg hc]
    have hlen2 : d.time.length ≠ 1 := fun h => hc (Or.inr h)
    have hr : timeScan q d.time 0 s.time_step + 1 < d.time.length := by
      rcases timeScan_spec q d.time 0 s.time_step with ⟨hr, _⟩ | ⟨_, ⟨t, ht, htq⟩, _⟩
      · rw [hr]; rcases hs with hs | hs
        · exact hs
        · exact absurd hs hlen2
      · rw [Nat.sub_zero] at ht
        have h1 := lt_length_of_getElem? ht
        by_contra hcon
        have heq : timeScan q d.time 0 s.time_step = d.time.length - 1 := by omega
        rw [heq, hlast] at ht
        simp only [Option.some.injEq] at ht
        subst ht
        exact hc (Or.inl htq)
    obtain ⟨t1, h1⟩ := getElem?_isSome_of_lt hr
    obtain ⟨t0, h0⟩ := getElem?_isSome_of_lt (show timeScan q d.time 0 s.time_step < d.time.length by omega)
    simp only [h0, h1]
    exact ⟨_, rfl⟩

/-- C6 (amended): on a strictly increasing time axis whose first timestamp is `t0`, a call of
`getTimeInfo` on a constructed engine is defined and leaves in `time_step` the greatest index
whose timestamp is strictly below the query time: no index with an earlier timestamp lies
above it, its own timestamp is earlier when `t0` is, it is `0` when the query time is not
after `t0`, and a query time equal to `time[i + 1]` gives `time_step = i`. -/
theorem C6_time_step_last_strictly_earlier (d : Dataset) (s : NCState) (q t0 : ℚ)
    (hsorted : d.time.Pairwise (fun a b => a < b)) (hhead : d.time.head? = some t0)
    (hs : Constructed s) :
    ∃ s1, getTimeInfo d s q = some s1
      ∧ (∀ (k : Nat) (t : ℚ), d.time[k]? = some t → t < q → k ≤ s1.time_step)
      ∧ (t0 < q → ∃ t, d.time[s1.time_step]? = some t ∧ t < q)
      ∧ (q ≤ t0 → s1.time_step = 0)
      ∧ (∀ i : Nat, d.time[i + 1]? = some q → s1.time_step = i) := by
  have h0 : d.time[0]? = some t0 := by rw [← List.head?_eq_getElem?]; exact hhead
  have hlen : 0 < d.time.length := lt_length_of_getElem? h0
  have hne : d.time ≠ [] := List.length_pos.mp hlen
  have hs0 : s.time_step = 0 := hs.1
  obtain ⟨s1, hT⟩ := getTimeInfo_defined d s q hne (by omega)
  have hstep := (getTimeInfo_some d s s1 q hT).1
  rw [hs0] at hstep
  refine ⟨s1, hT, ?_⟩
  rw [hstep]
  rcases timeScan_spec q d.time 0 0 with ⟨hr, hnone⟩ | ⟨_, ⟨t, ht, htq⟩, hmax⟩
  · rw [hr]
    refine ⟨fun k t hk htq => absurd htq (hnone k t hk), fun h => absurd h (hnone 0 t0 h0),
      fun _ => rfl, ?_⟩
    intro i hi
    obtain ⟨a, ha⟩ := getElem?_isSome_of_lt (show i < d.time.length by
      have := lt_length_of_getElem? hi; omega)
    exact absurd (pairwise_lt_getElem? hsorted i (i + 1) a q (by omega) ha hi) (hnone i a ha)
  · rw [Nat.sub_zero] at ht
    refine ⟨fun k t1 hk h1 => by have := hmax k t1 hk h1; omega, fun _ => ⟨t, ht, htq⟩, ?_, ?_⟩
    · intro hqt
      by_contra hr
      have := pairwise_lt_getElem? hsorted 0 _ t0 t (Nat.pos_of_ne_zero hr) h0 ht
      linarith
    · intro i hi
      obtain ⟨a, ha⟩ := getElem?_isSome_of_lt (show i < d.time.length by
        have := lt_length_of_getElem? hi; omega)
      have hai := pairwise_lt_getElem? hsorted i (i + 1) a q (by omega) ha hi
      have hle := hmax i a ha hai
      by_contra hne1
      have hlt : i + 1 ≤ timeScan q d.time 0 0 := by omega
      rcases Nat.eq_or_lt_of_le hlt with heq | hlt1
      · rw [← heq, hi] at ht
        simp only [Option.some.injEq] at ht
        subst ht; exact lt_irrefl _ htq
      · have := pairwise_lt_getElem? hsorted (i + 1) _ q t hlt1 hi ht
        linarith

/-- C6, the amended statement at the axis `[0, 10]` and the query time 10: `time_step = 0`. -/
theorem C6_time_step_last_strictly_earlier_witness :
    demoTwo.time.Pairwise (fun a b => a < b) ∧ demoTwo.time.head? = some 0
      ∧ Constructed state0
      ∧ ∃ s1, getTimeInfo demoTwo state0 10 = some s1 ∧ s1.time_step = 0 :=
  ⟨by decide!, by decide!, by decide!,
    match C6_time_step_last_strictly_earlier demoTwo state0 10 0 (by decide!) (by decide!)
        (by decide!) with
    | ⟨s1, hT, _, _, _, hexact⟩ => ⟨s1, hT, hexact 0 (by decide!)⟩⟩

/-- C6, as stated, fails on the axis `[0, 10]` at the query time 10: the axis is strictly
increasing, the engine is as constructed, `time[1] = 10 ≤ 10`, and `getTimeInfo` leaves
`time_step = 0`, below the index 1. -/
theorem C6_exact_timestamp_selects_previous_step :
    demoTwo.time.Pairwise (fun a b => a < b) ∧ Constructed state0
      ∧ demoTwo.time[0]? = some 0 ∧ (0 : ℚ) ≤ 10
      ∧ demoTwo.time[1]? = some 10 ∧ (10 : ℚ) ≤ 10
      ∧ (getTimeInfo demoTwo state0 10).map (fun s => s.time_step) = some 0
      ∧ (0 : Nat) < 1 := by
  decide!

/-- C7: on a non-empty time axis, whenever `getTimeInfo` is defined, `more_time` is false
exactly when the query time exceeds the last timestamp or the axis has one entry, and when it
is true `time_since = current_time - time[time_step]` and
`time_until = time[time_step + 1] - current_time` for the `time_step` the call leaves; the
call is defined when the `time_step` it starts from has a successor on the axis (as on a
constructed engine) or the axis has one entry. -/
theorem C7_more_time_and_separations (d : Dataset) (s : NCState) (q : ℚ)
    (hne : d.time ≠ []) :
    (∀ s1, getTimeInfo d s q = some s1 →
        ∃ tlast, d.time.getLast? = some tlast
          ∧ (s1.more_time = false ↔ (q > tlast ∨ d.time.length = 1))
          ∧ (s1.more_time = true → ∃ t0 t1, d.time[s1.time_step]? = some t0
              ∧ d.time[s1.time_step + 1]? = some t1
              ∧ s1.time_since = q - t0 ∧ s1.time_until = t1 - q))
      ∧ (s.time_step + 1 < d.time.length ∨ d.time.length = 1 →
          ∃ s1, getTimeInfo d s q = some s1) :=
  ⟨fun s1 hT => (getTimeInfo_some d s s1 q hT).2, getTimeInfo_defined d s q hne⟩

/-- C7 at the axis `[0, 10]` and the query time 4. -/
theorem C7_more_time_and_separations_witness :
    demoTwo.time ≠ []
      ∧ ((∀ s1, getTimeInfo demoTwo state0 4 = some s1 →
          ∃ tlast, demoTwo.time.getLast? = some tlast
            ∧ (s1.more_time = false ↔ ((4 : ℚ) > tlast ∨ demoTwo.time.length = 1))
            ∧ (s1.more_time = true → ∃ t0 t1, demoTwo.time[s1.time_step]? = some t0
                ∧ demoTwo.time[s1.time_step + 1]? = some t1
                ∧ s1.time_since = 4 - t0 ∧ s1.time_until = t1 - 4))
        ∧ (state0.time_step + 1 < demoTwo.time.length ∨ demoTwo.time.length = 1 →
            ∃ s1, getTimeInfo demoTwo state0 4 = some s1)) :=
  ⟨by decide!, C7_more_time_and_separations demoTwo state0 4 (by decide!)⟩

/-! ## getS_rho -/

/-- The loop of `getS_rho` stops at the first level that is not deeper than `depth`: all
levels before the final counter are deeper, the level at the counter is not. -/
theorem levelScan_spec (depth : ℚ) :
    ∀ (l : List ℚ) (k : Nat),
      k ≤ levelScan depth l k ∧ levelScan depth l k ≤ k + l.length
      ∧ (∀ (i : Nat) (sd : ℚ), l[i]? = some sd → k + i < levelScan depth l k → sd > depth)
      ∧ (∀ sd : ℚ, l[levelScan depth l k - k]? = some sd → ¬ sd > depth) := by
  intro l
  induction l with
  | nil =>
    intro k
    simp [levelScan]
  | cons a rest ih =>
    intro k
    simp only [levelScan]
    by_cases ha : a > depth
    · rw [if_pos ha]
      obtain ⟨h1, h2, h3, h4⟩ := ih (k + 1)
      refine ⟨by omega, by simp only [List.length_cons]; omega, ?_, ?_⟩
      · intro i sd hi hlt
        cases i with
        | zero =>
          simp only [List.getElem?_cons_zero, Option.some.injEq] at hi
          subst hi; exact ha
        | succ i =>
          rw [List.getElem?_cons_succ] at hi
          exact h3 i sd hi (by omega)
      · intro sd hsd
        have hsub : levelScan depth rest (k + 1) - k
            = (levelScan depth rest (k + 1) - (k + 1)) + 1 := by omega
        rw [hsub, List.getElem?_cons_succ] at hsd
        exact h4 sd hsd
    · rw [if_neg ha]
      refine ⟨le_refl k, by omega, fun i sd _ hlt => by omega, ?_⟩
      intro sd hsd
      rw [Nat.sub_self, List.getElem?_cons_zero, Option.some.injEq] at hsd
      subst hsd; exact ha

/-- The result of `getS_rho` in terms of the final loop counter `r`. -/
theorem getS_rho_spec (d : Dataset) (s : NCState) (depth altitude : ℚ) :
    ∃ s1, getS_rho d s depth altitude = some s1
      ∧ s1.s_level = (levelScan depth (d.s_values.map (fun sv => -sv * (depth + altitude))) 0 : Int) - 1
      ∧ s1.floor_depth = depth + altitude
      ∧ (levelScan depth (d.s_values.map (fun sv => -sv * (depth + altitude))) 0 ≤ 1 →
          s1.dist_sigma = -1)
      ∧ (2 ≤ levelScan depth (d.s_values.map (fun sv => -sv * (depth + altitude))) 0 →
          ∃ sv, d.s_values[levelScan depth
              (d.s_values.map (fun sv => -sv * (depth + altitude))) 0 - 1]? = some sv
            ∧ s1.dist_sigma = -sv * (depth + altitude) - depth)
      ∧ (levelScan depth (d.s_values.map (fun sv => -sv * (depth + altitude))) 0
            = d.s_values.length → s1.dist_sp1 = -1)
      ∧ (levelScan depth (d.s_values.map (fun sv => -sv * (depth + altitude))) 0
            ≠ d.s_values.length →
          ∃ sv, d.s_values[levelScan depth
              (d.s_values.map (fun sv => -sv * (depth + altitude))) 0]? = some sv
            ∧ s1.dist_sp1 = depth - (-sv * (depth + altitude))) := by
  obtain ⟨_, hle, _, _⟩ :=
    levelScan_spec depth (d.s_values.map (fun sv => -sv * (depth + altitude))) 0
  rw [List.length_map, Nat.zero_add] at hle
  generalize hr : levelScan depth (d.s_values.map (fun sv => -sv * (depth + altitude))) 0 = r
    at hle
  unfold getS_rho
  simp only [hr, readLevel]
  have hsig : ∃ ds, (if (r : Int) - 1 > 0 then
        Option.map (fun sd => sd - depth)
          (if 0 ≤ (r : Int) - 1 then
            (d.s_values.map (fun sv => -sv * (depth + altitude)))[((r : Int) - 1).toNat]?
          else none)
      else some (-1)) = some ds
      ∧ (r ≤ 1 → ds = -1)
      ∧ (2 ≤ r → ∃ sv, d.s_values[r - 1]? = some sv ∧ ds = -sv * (depth + altitude) - depth) := by
    by_cases h2 : 2 ≤ r
    · obtain ⟨sv, hsv⟩ := getElem?_isSome_of_lt (show r - 1 < d.s_values.length by omega)
      have hpos : (r : Int) - 1 > 0 := by omega
      have hnn : 0 ≤ (r : Int) - 1 := by omega
      have hto : ((r : Int) - 1).toNat = r - 1 := by omega
      rw [if_pos hpos, if_pos hnn, hto, List.getElem?_map, hsv]
      exact ⟨_, rfl, fun h => by omega, fun _ => ⟨sv, rfl, rfl⟩⟩
    · have hpos : ¬ ((r : Int) - 1 > 0) := by omega
      rw [if_neg hpos]
      exact ⟨_, rfl, fun _ => rfl, fun h => absurd h h2⟩
  have hsp : ∃ dp, (if (r : Int) - 1 = (d.s_values.length : Int) - 1 then some (-1)
      else Option.map (fun sd => depth - sd)
          (if 0 ≤ (r : Int) - 1 + 1 then
            (d.s_values.map (fun sv => -sv * (depth + altitude)))[((r : Int) - 1 + 1).toNat]?
          else none)) = some dp
      ∧ (r = d.s_values.length → dp = -1)
      ∧ (r ≠ d.s_values.length →
          ∃ sv, d.s_values[r]? = some sv ∧ dp = depth - (-sv * (depth + altitude))) := by
    by_cases hlast : r = d.s_values.length
    · have heq : (r : Int) - 1 = (d.s_values.length : Int) - 1 := by omega
      rw [if_pos heq]
      exact ⟨_, rfl, fun _ => rfl, fun h => absurd hlast h⟩
    · obtain ⟨sv, hsv⟩ := getElem?_isSome_of_lt (show r < d.s_values.length by omega)
      have hne : ¬ ((r : Int) - 1 = (d.s_values.length : Int) - 1) := by omega
      have hnn : 0 ≤ (r : Int) - 1 + 1 := by omega
      have hto : ((r : Int) - 1 + 1).toNat = r := by omega
      rw [if_neg hne, if_pos hnn, hto, List.getElem?_map, hsv]
      exact ⟨_, rfl, fun h => absurd h hlast, fun _ => ⟨sv, rfl, rfl⟩⟩
  obtain ⟨ds, hds, hds1, hds2⟩ := hsig
  obtain ⟨dp, hdp, hdp1, hdp2⟩ := hsp
  rw [hds, hdp]
  exact ⟨_, rfl, rfl, rfl, hds1, hds2, hdp1, hdp2⟩

/-- C8: for a strictly increasing sigma array and a positive floor depth `depth + altitude`,
`getS_rho` is defined and sets `s_level` to `-1` when no level has a physical depth
`-sigma[k] * floor_depth` strictly greater than `depth`, and otherwise to the greatest index
`k` whose physical depth is strictly greater than `depth`. -/
theorem C8_s_level_deepest_bracket (d : Dataset) (s : NCState) (depth altitude : ℚ)
    (hsorted : d.s_values.Pairwise (fun a b => a < b)) (hfloor : 0 < depth + altitude) :
    ∃ s1, getS_rho d s depth altitude = some s1
      ∧ ((∀ (k : Nat) (sv : ℚ), d.s_values[k]? = some sv →
            ¬ (-sv * (depth + altitude) > depth)) → s1.s_level = -1)
      ∧ (∀ (k : Nat) (sv : ℚ), d.s_values[k]? = some sv → -sv * (depth + altitude) > depth →
          (∀ (k1 : Nat) (sv1 : ℚ), d.s_values[k1]? = some sv1 →
            -sv1 * (depth + altitude) > depth → k1 ≤ k) → s1.s_level = (k : Int)) := by
  obtain ⟨s1, hS, hlev, _, _, _, _, _⟩ := getS_rho_spec d s depth altitude
  obtain ⟨_, hle, hbelow, hstop⟩ :=
    levelScan_spec depth (d.s_values.map (fun sv => -sv * (depth + altitude))) 0
  rw [List.length_map, Nat.zero_add] at hle
  generalize hr : levelScan depth (d.s_values.map (fun sv => -sv * (depth + altitude))) 0 = r
    at hle hlev hbelow hstop
  refine ⟨s1, hS, ?_, ?_⟩
  · intro hnone
    have hr0 : r = 0 := by
      by_contra hne
      obtain ⟨sv, hsv⟩ := getElem?_isSome_of_lt (show 0 < d.s_values.length by omega)
      exact hnone 0 sv hsv (hbelow 0 (-sv * (depth + altitude))
        (by rw [List.getElem?_map, hsv]; rfl) (by omega))
    rw [hlev, hr0]; rfl
  · intro k sv hsv hdeep hmax
    have hk : k < d.s_values.length := lt_length_of_getElem? hsv
    have hupper : r ≤ k + 1 := by
      by_contra hc
      obtain ⟨sv1, hsv1⟩ := getElem?_isSome_of_lt (show k + 1 < d.s_values.length by omega)
      have := hmax (k + 1) sv1 hsv1 (hbelow (k + 1) (-sv1 * (depth + altitude))
        (by rw [List.getElem?_map, hsv1]; rfl) (by omega))
      omega
    have hlower : k + 1 ≤ r := by
      by_contra hc
      obtain ⟨sv1, hsv1⟩ := getElem?_isSome_of_lt (show r < d.s_values.length by omega)
      have hnot := hstop (-sv1 * (depth + altitude))
        (by rw [Nat.sub_zero, List.getElem?_map, hsv1]; rfl)
      rcases Nat.eq_or_lt_of_le (show r ≤ k by omega) with heq | hlt
      · rw [heq, hsv] at hsv1
        simp only [Option.some.injEq] at hsv1
        subst hsv1; exact hnot hdeep
      · have hlt1 := pairwise_lt_getElem? hsorted r k sv1 sv hlt hsv1 hsv
        apply hnot
        have : -sv * (depth + altitude) < -sv1 * (depth + altitude) := by nlinarith
        linarith
    rw [hlev]; omega

/-- C8 at the documented example: depth 1.5, level depths 2.2, 1.7, 1.2, 0.7, 0.2 (floor
depth 10); the call gives `s_level = 1`. -/
theorem C8_s_level_deepest_bracket_witness :
    demoFive.s_values.Pairwise (fun a b => a < b) ∧ (0 : ℚ) < 3 / 2 + 17 / 2
      ∧ (getS_rho demoFive state0 (3 / 2) (17 / 2)).map (fun s => s.s_level) = some 1
      ∧ ∃ s1, getS_rho demoFive state0 (3 / 2) (17 / 2) = some s1
        ∧ ((∀ (k : Nat) (sv : ℚ), demoFive.s_values[k]? = some sv →
              ¬ (-sv * (3 / 2 + 17 / 2) > 3 / 2)) → s1.s_level = -1)
        ∧ (∀ (k : Nat) (sv : ℚ), demoFive.s_values[k]? = some sv →
            -sv * (3 / 2 + 17 / 2) > 3 / 2 →
            (∀ (k1 : Nat) (sv1 : ℚ), demoFive.s_values[k1]? = some sv1 →
              -sv1 * (3 / 2 + 17 / 2) > 3 / 2 → k1 ≤ k) → s1.s_level = (k : Int)) :=
  ⟨by decide!, by decide!, by decide!,
    C8_s_level_deepest_bracket demoFive state0 (3 / 2) (17 / 2) (by decide!) (by decide!)⟩

/-- C9: `getS_rho` is defined for every sigma array and every query, with
`-1 ≤ s_level ≤ s_rho - 1`; `dist_sigma` is `-1` when `s_level` is `0` or `-1` and otherwise
is the physical depth of level `s_level` minus `depth`, which is strictly positive;
`dist_sp1` is `-1` when `s_level` is the last level and otherwise is `depth` minus the
physical depth of level `s_level + 1`, which is not negative. -/
theorem C9_bracket_distances (d : Dataset) (s : NCState) (depth altitude : ℚ) :
    ∃ s1, getS_rho d s depth altitude = some s1
      ∧ -1 ≤ s1.s_level ∧ s1.s_level ≤ (d.s_values.length : Int) - 1
      ∧ (s1.s_level ≤ 0 → s1.dist_sigma = -1)
      ∧ (0 < s1.s_level →
          ∃ sv, d.s_values[s1.s_level.toNat]? = some sv
            ∧ s1.dist_sigma = -sv * (depth + altitude) - depth ∧ 0 < s1.dist_sigma)
      ∧ (s1.s_level = (d.s_values.length : Int) - 1 → s1.dist_sp1 = -1)
      ∧ (s1.s_level ≠ (d.s_values.length : Int) - 1 →
          ∃ sv, d.s_values[(s1.s_level + 1).toNat]? = some sv
            ∧ s1.dist_sp1 = depth - (-sv * (depth + altitude)) ∧ 0 ≤ s1.dist_sp1) := by
  obtain ⟨s1, hS, hlev, _, hsig1, hsig2, hsp1, hsp2⟩ := getS_rho_spec d s depth altitude
  obtain ⟨_, hle, hbelow, hstop⟩ :=
    levelScan_spec depth (d.s_values.map (fun sv => -sv * (depth + altitude))) 0
  rw [List.length_map, Nat.zero_add] at hle
  generalize hr : levelScan depth (d.s_values.map (fun sv => -sv * (depth + altitude))) 0 = r
    at hle hlev hsig1 hsig2 hsp1 hsp2 hbelow hstop
  refine ⟨s1, hS, by omega, by omega, fun h => hsig1 (by omega), ?_,
    fun h => hsp1 (by omega), ?_⟩
  · intro hpos
    obtain ⟨sv, hsv, hd⟩ := hsig2 (by omega)
    have hto : s1.s_level.toNat = r - 1 := by omega
    refine ⟨sv, by rw [hto]; exact hsv, hd, ?_⟩
    have := hbelow (r - 1) (-sv * (depth + altitude))
      (by rw [List.getElem?_map, hsv]; rfl) (by omega)
    rw [hd]; linarith
  · intro hne
    obtain ⟨sv, hsv, hd⟩ := hsp2 (by omega)
    have hto : (s1.s_level + 1).toNat = r := by omega
    refine ⟨sv, by rw [hto]; exact hsv, hd, ?_⟩
    have := hstop (-sv * (depth + altitude))
      (by rw [Nat.sub_zero, List.getElem?_map, hsv]; rfl)
    rw [hd]; linarith

/-- C9 at the documented example (depth 1.5, floor depth 10, five levels). -/
theorem C9_bracket_distances_witness :
    ∃ s1, getS_rho demoFive state0 (3 / 2) (17 / 2) = some s1
      ∧ s1.s_level = 1 ∧ s1.dist_sigma = 1 / 5 ∧ s1.dist_sp1 = 3 / 10 :=
  match C9_bracket_distances demoFive state0 (3 / 2) (17 / 2) with
  | ⟨s1, hS, _⟩ => ⟨s1, hS, by
      have h : getS_rho demoFive state0 (3 / 2) (17 / 2)
          = some { state0 with floor_depth := 10, s_level := 1, dist_sigma := 1 / 5,
                               dist_sp1 := 3 / 10 } := by decide!
      rw [h] at hS
      simp only [Option.some.injEq] at hS
      subst hS
      exact ⟨rfl, rfl, rfl⟩⟩

/-! ## calcValue -/

/-- C10 (amended): in `calcValue` with `more_time` true and both bracket values defined, a
bad bracket is not left out: if at least one of the two values is the sentinel the result is
the sentinel, and otherwise it is `WeightedAvg` of the two values with the weights
`time_since`, `time_until`, both marked good; the state is unchanged. -/
theorem C10_either_bad_bracket_gives_bad (W : Averager) (d : Dataset) (s : NCState)
    (eta_index xi_index : Arr4 Nat) (dist : Arr4 ℚ) (vals : Field4) (val1 val2 : ℚ)
    (hmore : s.more_time = true)
    (h1 : getValueAtTime W d s s.time_step eta_index xi_index dist vals = some val1)
    (h2 : getValueAtTime W d s (s.time_step + 1) eta_index xi_index dist vals = some val2) :
    calcValue W d s eta_index xi_index dist vals
      = some (if val1 = bad_val ∨ val2 = bad_val then bad_val
              else W [val1, val2] [s.time_since, s.time_until] [1, 1] 2, s) := by
  unfold calcValue
  rw [if_pos hmore]
  simp only [h1, h2]
  split_ifs <;> rfl

/-- C10, the amended statement on `demoTwo` at the state `stateMid`. -/
theorem C10_either_bad_bracket_gives_bad_witness :
    stateMid.more_time = true
      ∧ calcValue combine demoTwo stateMid stateMid.eta_rho_index stateMid.xi_rho_index
          stateMid.rho_dist demoTwo.rho_vals
        = some (if bad_val = bad_val ∨ (3 : ℚ) = bad_val then bad_val
                else combine [bad_val, 3] [stateMid.time_since, stateMid.time_until] [1, 1] 2,
                stateMid) :=
  ⟨by decide!,
    C10_either_bad_bracket_gives_bad combine demoTwo stateMid stateMid.eta_rho_index
      stateMid.xi_rho_index stateMid.rho_dist demoTwo.rho_vals bad_val 3
      (by decide!) (by decide!) (by decide!)⟩

/-- C10, as stated, fails on `demoTwo` (scalar field -1 at time step 0 and 3 at time step 1):
at the state `stateMid`, with `more_time` true, the bracket value at `time_step` is the
sentinel and the one at `time_step + 1` is 3, yet `calcValue` returns the sentinel and not 3;
the query `Update(3, 4, 2, 4)` from `state0` accordingly returns false with `m_value = -1`. -/
theorem C10_one_bad_bracket_rejects_value :
    stateMid.more_time = true
      ∧ getValueAtTime combine demoTwo stateMid stateMid.time_step stateMid.eta_rho_index
          stateMid.xi_rho_index stateMid.rho_dist demoTwo.rho_vals = some bad_val
      ∧ getValueAtTime combine demoTwo stateMid (stateMid.time_step + 1)
          stateMid.eta_rho_index stateMid.xi_rho_index stateMid.rho_dist demoTwo.rho_vals
          = some 3
      ∧ (3 : ℚ) ≠ bad_val
      ∧ (calcValue combine demoTwo stateMid stateMid.eta_rho_index stateMid.xi_rho_index
          stateMid.rho_dist demoTwo.rho_vals).map Prod.fst = some bad_val
      ∧ (Update sqrtQ combine demoTwo state0 3 4 2 4).map (fun r => (r.1, r.2.m_value))
          = some (some false, -1) := by
  decide!

/-! ## Scenario A and the single sigma level -/

/-- The spec's `combine` of four valid entries with one common non-zero weight is their mean. -/
theorem combine_equal_weights (a b c e w : ℚ) (hw : w ≠ 0) :
    combine [a, b, c, e] [w, w, w, w] [1, 1, 1, 1] 4 = (a + b + c + e) / 4 := by
  simp [combine, hw]
  field_simp
  ring

/-- The spec's `combine` of two entries of which only the second is valid is the second value. -/
theorem combine_second_only (z a w0 w1 : ℚ) :
    combine [z, a] [w0, w1] [0, 1] 2 = a := by
  by_cases hw : w1 = 0
  · simp [combine, hw]
  · simp [combine, hw]

/-- The spec's `combine` of two entries that are both invalid is the sentinel. -/
theorem combine_none_valid (z0 z1 w0 w1 : ℚ) :
    combine [z0, z1] [w0, w1] [0, 0] 2 = bad_val := by
  simp [combine]

/-- The function `XYtoIndex` is `XYtoIndexR` at the radius `chk_dist`. -/
theorem XYtoIndex_eq_XYtoIndexR (sqrt : ℚ → ℚ) (x y : ℚ) (g : Grid) :
    XYtoIndex sqrt x y g = XYtoIndexR sqrt chk_dist x y g := rfl

/-- The search on the Scenario A grid at `(5, 5)`: all four nodes have squared distance 50,
and the four slots hold `sqrt 50` in one of two index orders. -/
theorem XYtoIndexR_scenarioA (sqrt : ℚ → ℚ) (R : ℚ) (h50 : 50 < R ^ 2) (hR : sqrt 50 ≠ R) :
    XYtoIndexR sqrt R 5 5 (regularGrid 2 2 10 10)
        = some (true, { l_eta := ⟨1, 1, 0, 0⟩, l_xi := ⟨1, 0, 1, 0⟩,
                        l_dist := ⟨sqrt 50, sqrt 50, sqrt 50, sqrt 50⟩ })
      ∨ XYtoIndexR sqrt R 5 5 (regularGrid 2 2 10 10)
        = some (true, { l_eta := ⟨0, 0, 1, 1⟩, l_xi := ⟨0, 1, 0, 1⟩,
                        l_dist := ⟨sqrt 50, sqrt 50, sqrt 50, sqrt 50⟩ }) := by
  have hrange : List.range 2 = [0, 1] := by decide
  by_cases hlt : (50 : ℚ) < sqrt 50 ^ 2
  · left
    simp only [XYtoIndexR, regularGrid, scanGrid, scanRow, Grid.read, hrange, nearInitR, xyStep]
    norm_num [hlt, h50, hR]
  · right
    simp only [XYtoIndexR, regularGrid, scanGrid, scanRow, Grid.read, hrange, nearInitR, xyStep]
    norm_num [hlt, h50, hR]

/-- The search of `XYtoIndex` on the Scenario A grid at `(5, 5)`. -/
theorem XYtoIndex_scenarioA (sqrt : ℚ → ℚ) (hR : sqrt 50 ≠ chk_dist) :
    XYtoIndex sqrt 5 5 (regularGrid 2 2 10 10)
        = some (true, { l_eta := ⟨1, 1, 0, 0⟩, l_xi := ⟨1, 0, 1, 0⟩,
                        l_dist := ⟨sqrt 50, sqrt 50, sqrt 50, sqrt 50⟩ })
      ∨ XYtoIndex sqrt 5 5 (regularGrid 2 2 10 10)
        = some (true, { l_eta := ⟨0, 0, 1, 1⟩, l_xi := ⟨0, 1, 0, 1⟩,
                        l_dist := ⟨sqrt 50, sqrt 50, sqrt 50, sqrt 50⟩ }) := by
  rw [XYtoIndex_eq_XYtoIndexR]
  exact XYtoIndexR_scenarioA sqrt chk_dist (by unfold chk_dist; norm_num) hR

/-- In Scenario A, with both bracket distances at the sentinel, no level is read and the
value at a time step is the sentinel. -/
theorem getValueAtTime_scenarioA_none (sigma : ℚ) (s : NCState) (t : Nat)
    (eta_index xi_index : Arr4 Nat) (dist : Arr4 ℚ) (vals : Field4)
    (hsig : s.dist_sigma = -1) (hsp : s.dist_sp1 = -1) :
    getValueAtTime combine (scenarioA sigma) s t eta_index xi_index dist vals = some bad_val := by
  simp [getValueAtTime, levelAvg, hsig, hsp, combine_none_valid]

/-- In Scenario A, with `s_level = -1` and only the upper bracket in use, the value at time
step 0 is the mean of the four corner values at level 0. -/
theorem getValueAtTime_scenarioA_upper (sigma w : ℚ) (hw : w ≠ 0) (s : NCState)
    (eta_index xi_index : Arr4 Nat) (g : Nat → Nat → Nat → Nat → ℚ)
    (he : eta_index.a0 < 2 ∧ eta_index.a1 < 2 ∧ eta_index.a2 < 2 ∧ eta_index.a3 < 2)
    (hx : xi_index.a0 < 2 ∧ xi_index.a1 < 2 ∧ xi_index.a2 < 2 ∧ xi_index.a3 < 2)
    (hsig : s.dist_sigma = -1) (hsp : s.dist_sp1 ≠ -1) (hlev : s.s_level = -1) :
    getValueAtTime combine (scenarioA sigma) s 0 eta_index xi_index ⟨w, w, w, w⟩
        (field22 1 1 g)
      = some ((g 0 0 eta_index.a0 xi_index.a0 + g 0 0 eta_index.a1 xi_index.a1
          + g 0 0 eta_index.a2 xi_index.a2 + g 0 0 eta_index.a3 xi_index.a3) / 4) := by
  simp [getValueAtTime, levelAvg, cornerAt, Arr2.read, Field4.read, scenarioA, field22,
    Arr4.toList, hsig, hsp, hlev, he, hx, combine_equal_weights _ _ _ _ _ hw,
    combine_second_only]

/-- In Scenario A the floor depth is 5. -/
theorem GetBathy_scenarioA (sigma w : ℚ) (hw : w ≠ 0) (s : NCState)
    (he : s.eta_rho_index.a0 < 2 ∧ s.eta_rho_index.a1 < 2 ∧ s.eta_rho_index.a2 < 2
      ∧ s.eta_rho_index.a3 < 2)
    (hx : s.xi_rho_index.a0 < 2 ∧ s.xi_rho_index.a1 < 2 ∧ s.xi_rho_index.a2 < 2
      ∧ s.xi_rho_index.a3 < 2)
    (hd : s.rho_dist = ⟨w, w, w, w⟩) :
    GetBathy combine (scenarioA sigma) s = some { s with floor_depth := 5 } := by
  simp [GetBathy, Arr2.read, scenarioA, Arr4.toList, he, hx, hd,
    combine_equal_weights _ _ _ _ _ hw]
  norm_num

/-- In Scenario A with the level deeper than the query, both bracket distances are the
sentinel. -/
theorem getS_rho_scenarioA_deep (sigma : ℚ) (s : NCState) (hdeep : 2 < -sigma * 5) :
    getS_rho (scenarioA sigma) s 2 3
      = some { s with floor_depth := 5, s_level := 0, dist_sigma := -1, dist_sp1 := -1 } := by
  have h1 : 2 < -(sigma * 5) := by linarith
  have h5 : (2 : ℚ) + 3 = 5 := by norm_num
  simp [getS_rho, scenarioA, levelScan, readLevel, h1, h5]

/-- In Scenario A with the level not deeper than the query, `s_level = -1` and only the
upper bracket is in use. -/
theorem getS_rho_scenarioA_shallow (sigma : ℚ) (s : NCState) (hsh : -sigma * 5 ≤ 2) :
    getS_rho (scenarioA sigma) s 2 3
      = some { s with floor_depth := 5, s_level := -1, dist_sigma := -1,
                      dist_sp1 := 2 - -sigma * 5 } := by
  have h1 : ¬ (2 < -(sigma * 5)) := by
    intro h; linarith
  have h5 : (2 : ℚ) + 3 = 5 := by norm_num
  simp [getS_rho, scenarioA, levelScan, readLevel, h1, h5]

/-- In Scenario A, `calcValue` with both bracket distances at the sentinel. -/
theorem calcValue_scenarioA_deep (sigma : ℚ) (s : NCState) (eta_index xi_index : Arr4 Nat)
    (dist : Arr4 ℚ) (vals : Field4) (hmt : s.more_time = false)
    (hsig : s.dist_sigma = -1) (hsp : s.dist_sp1 = -1) :
    calcValue combine (scenarioA sigma) s eta_index xi_index dist vals
      = some (bad_val, { s with time_message_posted := true }) := by
  unfold calcValue
  rw [hmt]
  simp only [Bool.false_eq_true, if_false,
    getValueAtTime_scenarioA_none sigma s _ eta_index xi_index dist vals hsig hsp]

/-- In Scenario A, `calcValue` with only the upper bracket in use. -/
theorem calcValue_scenarioA_upper (sigma w : ℚ) (hw : w ≠ 0) (s : NCState)
    (eta_index xi_index : Arr4 Nat) (g : Nat → Nat → Nat → Nat → ℚ)
    (he : eta_index.a0 < 2 ∧ eta_index.a1 < 2 ∧ eta_index.a2 < 2 ∧ eta_index.a3 < 2)
    (hx : xi_index.a0 < 2 ∧ xi_index.a1 < 2 ∧ xi_index.a2 < 2 ∧ xi_index.a3 < 2)
    (hmt : s.more_time = false) (hts : s.time_step = 0)
    (hsig : s.dist_sigma = -1) (hsp : s.dist_sp1 ≠ -1) (hlev : s.s_level = -1) :
    calcValue combine (scenarioA sigma) s eta_index xi_index ⟨w, w, w, w⟩ (field22 1 1 g)
      = some ((g 0 0 eta_index.a0 xi_index.a0 + g 0 0 eta_index.a1 xi_index.a1
          + g 0 0 eta_index.a2 xi_index.a2 + g 0 0 eta_index.a3 xi_index.a3) / 4,
          { s with time_message_posted := true }) := by
  unfold calcValue
  rw [hmt, hts]
  simp only [Bool.false_eq_true, if_false,
    getValueAtTime_scenarioA_upper sigma w hw s eta_index xi_index g he hx hsig hsp hlev]

/-- Scenario A after the three neighbour searches. -/
theorem updateTail_scenarioA (sigma w : ℚ) (hw : w ≠ 0) (s : NCState)
    (hts : s.time_step = 0) (hmt : s.more_time = false)
    (he : s.eta_rho_index.a0 < 2 ∧ s.eta_rho_index.a1 < 2 ∧ s.eta_rho_index.a2 < 2
      ∧ s.eta_rho_index.a3 < 2)
    (hx : s.xi_rho_index.a0 < 2 ∧ s.xi_rho_index.a1 < 2 ∧ s.xi_rho_index.a2 < 2
      ∧ s.xi_rho_index.a3 < 2)
    (hesum : s.eta_rho_index.a0 + s.eta_rho_index.a1 + s.eta_rho_index.a2
      + s.eta_rho_index.a3 = 2)
    (hxsum : s.xi_rho_index.a0 + s.xi_rho_index.a1 + s.xi_rho_index.a2
      + s.xi_rho_index.a3 = 2)
    (hee : s.eta_east_index = s.eta_rho_index) (hxe : s.xi_east_index = s.xi_rho_index)
    (hen : s.eta_north_index = s.eta_rho_index) (hxn : s.xi_north_index = s.xi_rho_index)
    (hd : s.rho_dist = ⟨w, w, w, w⟩) (hv : s.vec_dist = ⟨w, w, w, w⟩) :
    ∃ r s1, updateTail combine (scenarioA sigma) s 2 = some (r, s1)
      ∧ GetFloorDepth s1 = 5 ∧ GetAltitude s1 = 3
      ∧ (2 < -sigma * 5 → GetValue s1 = bad_val ∧ r = some false)
      ∧ (-sigma * 5 ≤ 2 → GetValue s1 = 5 / 2 ∧ r = none) := by
  have h3 : (5 : ℚ) - 2 = 3 := by norm_num
  have hrv : (scenarioA sigma).rho_vals = field22 1 1 (fun _ _ j i => 1 + 2 * j + i) := rfl
  have hev : (scenarioA sigma).east_values = field22 1 1 (fun _ _ _ _ => 0) := rfl
  have hnv : (scenarioA sigma).north_values = field22 1 1 (fun _ _ _ _ => 0) := rfl
  unfold updateTail
  rw [GetBathy_scenarioA sigma w hw s he hx hd]
  dsimp only
  rw [h3]
  by_cases hdeep : 2 < -sigma * 5
  · rw [getS_rho_scenarioA_deep sigma _ hdeep]
    dsimp only
    rw [calcValue_scenarioA_deep sigma]
    rotate_left
    · exact hmt
    · rfl
    · rfl
    dsimp only
    rw [calcValue_scenarioA_deep sigma]
    rotate_left
    · exact hmt
    · rfl
    · rfl
    dsimp only
    rw [calcValue_scenarioA_deep sigma]
    rotate_left
    · exact hmt
    · rfl
    · rfl
    dsimp only
    rw [if_pos rfl]
    exact ⟨_, _, rfl, rfl, rfl, fun _ => ⟨rfl, rfl⟩, fun h => absurd hdeep (not_lt.mpr h)⟩
  · have hsh : -sigma * 5 ≤ 2 := not_lt.mp hdeep
    have hne : (2 : ℚ) - -sigma * 5 ≠ -1 := by
      intro h; linarith
    have hsumq : ((1 : ℚ) + 2 * (s.eta_rho_index.a0 : ℚ) + (s.xi_rho_index.a0 : ℚ)
        + (1 + 2 * (s.eta_rho_index.a1 : ℚ) + (s.xi_rho_index.a1 : ℚ))
        + (1 + 2 * (s.eta_rho_index.a2 : ℚ) + (s.xi_rho_index.a2 : ℚ))
        + (1 + 2 * (s.eta_rho_index.a3 : ℚ) + (s.xi_rho_index.a3 : ℚ))) / 4 = 5 / 2 := by
      have h1 : ((s.eta_rho_index.a0 : ℚ) + s.eta_rho_index.a1 + s.eta_rho_index.a2
          + s.eta_rho_index.a3) = 2 := by exact_mod_cast hesum
      have h2 : ((s.xi_rho_index.a0 : ℚ) + s.xi_rho_index.a1 + s.xi_rho_index.a2
          + s.xi_rho_index.a3) = 2 := by exact_mod_cast hxsum
      linarith
    rw [getS_rho_scenarioA_shallow sigma _ hsh]
    dsimp only
    rw [hrv, hev, hnv, hd, hv, hee, hxe, hen, hxn]
    rw [calcValue_scenarioA_upper sigma w hw]
    rotate_left
    · exact he
    · exact hx
    · exact hmt
    · exact hts
    · rfl
    · exact hne
    · rfl
    dsimp only
    rw [calcValue_scenarioA_upper sigma w hw]
    rotate_left
    · exact he
    · exact hx
    · exact hmt
    · exact hts
    · rfl
    · exact hne
    · rfl
    dsimp only
    rw [calcValue_scenarioA_upper sigma w hw]
    rotate_left
    · exact he
    · exact hx
    · exact hmt
    · exact hts
    · rfl
    · exact hne
    · rfl
    dsimp only
    rw [hsumq]
    have hgood : ¬ ((5 / 2 : ℚ) = bad_val) := by unfold bad_val; norm_num
    rw [if_neg hgood]
    exact ⟨_, _, rfl, rfl, rfl, fun h => absurd h hdeep, fun _ => ⟨rfl, rfl⟩⟩

/-- The call `Update` after a defined `getTimeInfo` and three successful searches is
`updateTail` on the state that holds the search results. -/
theorem Update_of_searches (sqrt : ℚ → ℚ) (W : Averager) (d : Dataset) (s sT : NCState)
    (x y h t : ℚ) (l l1 : Near) (hT : getTimeInfo d s t = some sT)
    (hrho : XYtoIndex sqrt x y d.rho = some (true, l))
    (hvec : XYtoIndex sqrt x y d.vec = some (true, l1)) :
    Update sqrt W d s x y h t
      = updateTail W d
          { sT with eta_rho_index := l.l_eta, xi_rho_index := l.l_xi, rho_dist := l.l_dist,
                    eta_east_index := l1.l_eta, xi_east_index := l1.l_xi,
                    eta_north_index := l1.l_eta, xi_north_index := l1.l_xi,
                    vec_dist := l1.l_dist } h := by
  unfold Update
  simp only [hT, hrho, hvec, Bool.not_true, Bool.false_eq_true, if_false]

/-- In Scenario A, `getTimeInfo(0)` on a state with `time_step = 0`. -/
theorem getTimeInfo_scenarioA (sigma : ℚ) (s : NCState) (hs : s.time_step = 0) :
    getTimeInfo (scenarioA sigma) s 0 = some { s with time_step := 0, more_time := false } := by
  simp [getTimeInfo, scenarioA, timeScan, hs]

/-- Scenario A for every `sqrt` with `sqrt 50` neither 0 nor `chk_dist` and every single
sigma value: `Update(5, 5, 2, 0)` from a state with `time_step = 0` leaves floor depth 5 and
altitude 3; the value is the sentinel (and the call returns false) when the level is deeper
than the query, `2 < -sigma * 5`, and 5/2 (with no returned value) otherwise. -/
theorem scenarioA_outcome (sqrt : ℚ → ℚ) (sigma : ℚ) (s : NCState) (hs : s.time_step = 0)
    (h0 : sqrt 50 ≠ 0) (hR : sqrt 50 ≠ chk_dist) :
    ∃ r s1, Update sqrt combine (scenarioA sigma) s 5 5 2 0 = some (r, s1)
      ∧ GetFloorDepth s1 = 5 ∧ GetAltitude s1 = 3
      ∧ (2 < -sigma * 5 → GetValue s1 = bad_val ∧ r = some false)
      ∧ (-sigma * 5 ≤ 2 → GetValue s1 = 5 / 2 ∧ r = none) := by
  have hT := getTimeInfo_scenarioA sigma s hs
  rcases XYtoIndex_scenarioA sqrt hR with hX | hX
  · rw [Update_of_searches sqrt combine (scenarioA sigma) s _ 5 5 2 0 _ _ hT hX hX]
    exact updateTail_scenarioA sigma (sqrt 50) h0 _ rfl rfl (by simp) (by simp) rfl rfl
      rfl rfl rfl rfl rfl rfl
  · rw [Update_of_searches sqrt combine (scenarioA sigma) s _ 5 5 2 0 _ _ hT hX hX]
    exact updateTail_scenarioA sigma (sqrt 50) h0 _ rfl rfl (by simp) (by simp) rfl rfl
      rfl rfl rfl rfl rfl rfl

/-- C11: in Scenario A with the single sigma value -1 (or -1/2), `Update(5, 5, 2, 0)` on a
constructed engine leaves floor depth 5 and altitude 3 but the value -1, the sentinel, and
returns false: the level is deeper than the query, `getS_rho` sets both bracket distances to
-1 and no level enters the average. -/
theorem C11_scenarioA_sentinel :
    (Update sqrtQ combine (scenarioA (-1)) state0 5 5 2 0).map
        (fun r => (r.1, GetValue r.2, GetFloorDepth r.2, GetAltitude r.2))
        = some (some false, -1, 5, 3)
      ∧ (Update sqrtQ combine (scenarioA (-1 / 2)) state0 5 5 2 0).map
        (fun r => (r.1, GetValue r.2, GetFloorDepth r.2, GetAltitude r.2))
        = some (some false, -1, 5, 3)
      ∧ ((-1 : ℚ) ≤ -1 ∧ (-1 : ℚ) ≤ 0) ∧ (-1 : ℚ) ≠ 5 / 2 := by
  decide!

/-- With both bracket distances at the sentinel, `getValueAtTime` reads no level and
returns `WeightedAvg` of two entries that are both marked invalid. -/
theorem getValueAtTime_both_sentinels (W : Averager) (d : Dataset) (s : NCState) (t : Nat)
    (eta_index xi_index : Arr4 Nat) (dist : Arr4 ℚ) (vals : Field4)
    (hsig : s.dist_sigma = -1) (hsp : s.dist_sp1 = -1) :
    getValueAtTime W d s t eta_index xi_index dist vals
      = some (W [0, 0] [-1, -1] [0, 0] 2) := by
  simp [getValueAtTime, levelAvg, hsig, hsp]

/-- With `s_level = -1` and only the upper bracket in use, `getValueAtTime` with the
spec's `combine` is the horizontal average at level 0. -/
theorem getValueAtTime_upper_only (d : Dataset) (s : NCState) (t : Nat)
    (eta_index xi_index : Arr4 Nat) (dist : Arr4 ℚ) (vals : Field4)
    (hsig : s.dist_sigma = -1) (hsp : s.dist_sp1 ≠ -1) (hlev : s.s_level = -1) :
    getValueAtTime combine d s t eta_index xi_index dist vals
      = horizontalAvg combine d t 0 eta_index xi_index dist vals := by
  have hcorner : ∀ j i : Nat, cornerAt d s t vals 1 j i
      = (match d.mask_rho.read j i with
        | none => (none : Option (ℚ × Int))
        | some water =>
          if water then (vals.read t 0 j i).map (fun v => (v, (1 : Int)))
          else some (-1, 0)) := by
    intro j i
    unfold cornerAt
    rw [hlev]
    cases d.mask_rho.read j i with
    | none => rfl
    | some water =>
      cases water with
      | false => rfl
      | true =>
        simp only [if_true]
        have h0 : (-1 : Int) + 1 = 0 := by norm_num
        rw [h0]
        cases vals.read t 0 j i <;> rfl
  unfold getValueAtTime horizontalAvg
  simp only [levelAvg, hsig, hsp, ne_eq, not_true_eq_false, not_false_eq_true, if_true,
    if_false, hcorner]
  cases h0 : (match d.mask_rho.read eta_index.a0 xi_index.a0 with
        | none => (none : Option (ℚ × Int))
        | some water =>
          if water then (vals.read t 0 eta_index.a0 xi_index.a0).map (fun v => (v, (1 : Int)))
          else some (-1, 0)) <;>
  cases h1 : (match d.mask_rho.read eta_index.a1 xi_index.a1 with
        | none => (none : Option (ℚ × Int))
        | some water =>
          if water then (vals.read t 0 eta_index.a1 xi_index.a1).map (fun v => (v, (1 : Int)))
          else some (-1, 0)) <;>
  cases h2 : (match d.mask_rho.read eta_index.a2 xi_index.a2 with
        | none => (none : Option (ℚ × Int))
        | some water =>
          if water then (vals.read t 0 eta_index.a2 xi_index.a2).map (fun v => (v, (1 : Int)))
          else some (-1, 0)) <;>
  cases h3 : (match d.mask_rho.read eta_index.a3 xi_index.a3 with
        | none => (none : Option (ℚ × Int))
        | some water =>
          if water then (vals.read t 0 eta_index.a3 xi_index.a3).map (fun v => (v, (1 : Int)))
          else some (-1, 0)) <;>
  simp [combine_second_only]

/-- The result of `getS_rho` on a sigma array with the single value `sigma`. -/
theorem getS_rho_one_level (d : Dataset) (s : NCState) (depth altitude sigma : ℚ)
    (h1 : d.s_values = [sigma]) :
    getS_rho d s depth altitude
      = some (if -sigma * (depth + altitude) > depth then
          { s with floor_depth := depth + altitude, s_level := 0, dist_sigma := -1,
                   dist_sp1 := -1 }
        else
          { s with floor_depth := depth + altitude, s_level := -1, dist_sigma := -1,
                   dist_sp1 := depth - -sigma * (depth + altitude) }) := by
  by_cases hdeep : -sigma * (depth + altitude) > depth
  · rw [if_pos hdeep]
    have hd : depth < -(sigma * (depth + altitude)) := by linarith
    simp [getS_rho, h1, levelScan, readLevel, hd]
  · rw [if_neg hdeep]
    have hd : ¬ depth < -(sigma * (depth + altitude)) := by
      intro h; apply hdeep; linarith
    simp [getS_rho, h1, levelScan, readLevel, hd]

/-- C12 (amended): with exactly one sigma level `sigma`, `getS_rho` is defined and sets
`dist_sigma = -1`; `dist_sp1` is `-1` exactly when the level's physical depth
`-sigma * (depth + altitude)` is strictly greater than `depth`; when it is not,
`s_level = -1`, `dist_sp1 = depth - physicalDepth[0] ≥ 0` and `getValueAtTime` with the
spec's `combine` is the land-mask-aware horizontal average of the four corners at level 0. -/
theorem C12_single_level_not_deeper (d : Dataset) (s : NCState) (depth altitude sigma : ℚ)
    (h1 : d.s_values = [sigma]) :
    ∃ s1, getS_rho d s depth altitude = some s1
      ∧ s1.dist_sigma = -1
      ∧ (s1.dist_sp1 = -1 ↔ -sigma * (depth + altitude) > depth)
      ∧ (¬ (-sigma * (depth + altitude) > depth) →
          s1.s_level = -1 ∧ s1.dist_sp1 = depth - -sigma * (depth + altitude)
          ∧ 0 ≤ s1.dist_sp1
          ∧ ∀ (t : Nat) (eta_index xi_index : Arr4 Nat) (dist : Arr4 ℚ) (vals : Field4),
              getValueAtTime combine d s1 t eta_index xi_index dist vals
                = horizontalAvg combine d t 0 eta_index xi_index dist vals) := by
  refine ⟨_, getS_rho_one_level d s depth altitude sigma h1, ?_⟩
  by_cases hdeep : -sigma * (depth + altitude) > depth
  · rw [if_pos hdeep]
    exact ⟨rfl, ⟨fun _ => hdeep, fun _ => rfl⟩, fun h => absurd hdeep h⟩
  · rw [if_neg hdeep]
    have hnn : 0 ≤ depth - -sigma * (depth + altitude) := by
      have := not_lt.mp hdeep
      linarith
    have hne : depth - -sigma * (depth + altitude) ≠ -1 := by
      intro h; rw [h] at hnn; norm_num at hnn
    refine ⟨rfl, ⟨fun h => absurd h hne, fun h => absurd h hdeep⟩, fun _ => ⟨rfl, rfl, hnn, ?_⟩⟩
    intro t eta_index xi_index dist vals
    exact getValueAtTime_upper_only d _ t eta_index xi_index dist vals rfl hne rfl

/-- C12, the amended statement on Scenario A with sigma -1/2, depth 3 and altitude 2. -/
theorem C12_single_level_not_deeper_witness :
    (scenarioA (-1 / 2)).s_values = [-1 / 2]
      ∧ ∃ s1, getS_rho (scenarioA (-1 / 2)) state0 3 2 = some s1
        ∧ s1.dist_sigma = -1 ∧ s1.dist_sp1 = 1 / 2 ∧ s1.s_level = -1 :=
  ⟨by decide!,
    match C12_single_level_not_deeper (scenarioA (-1 / 2)) state0 3 2 (-1 / 2) (by decide!) with
    | ⟨s1, hS, hsig, _, hrest⟩ =>
      ⟨s1, hS, hsig, by rw [(hrest (by decide!)).2.1]; decide!, (hrest (by decide!)).1⟩⟩

/-- C12, as stated, fails on a dataset with the single sigma value -1/2 at depth 3 and floor
depth 5: the level's physical depth 5/2 is not greater than the depth, and `getS_rho` sets
`dist_sp1 = 1/2`, not the sentinel. -/
theorem C12_single_level_genuine_upper_distance :
    (scenarioA (-1 / 2)).s_values.length = 1
      ∧ (getS_rho (scenarioA (-1 / 2)) state0 3 2).map
          (fun s => (s.s_level, s.dist_sigma, s.dist_sp1)) = some (-1, -1, 1 / 2)
      ∧ (1 / 2 : ℚ) ≠ -1 := by
  decide!

/-! ## The time axis past its ends -/

/-- A query time after the last timestamp makes the loop of `getTimeInfo` end at the last
index. -/
theorem timeScan_past_last (q : ℚ) :
    ∀ (l : List ℚ) (i ts : Nat) (tlast : ℚ), l.getLast? = some tlast → tlast < q →
      timeScan q l i ts = i + (l.length - 1) := by
  intro l
  induction l with
  | nil => intro i ts tlast h; simp at h
  | cons a rest ih =>
    intro i ts tlast hlast hq
    cases rest with
    | nil =>
      simp only [List.getLast?_singleton, Option.some.injEq] at hlast
      subst hlast
      simp [timeScan, hq]
    | cons b rest1 =>
      rw [List.getLast?_cons_cons] at hlast
      simp only [timeScan]
      have := ih (i + 1) (if q > a then i else ts) tlast hlast hq
      simp only [timeScan] at this
      rw [this]
      simp only [List.length_cons]
      omega

/-- C13: for a query time strictly after the last timestamp of a non-empty axis,
`getTimeInfo` is defined, sets `time_step` to the last index and `more_time` to false, and
`calcValue` on any state with that `time_step` and `more_time` returns exactly
`getValueAtTime` at the last time step (and is defined exactly when that is). -/
theorem C13_past_last_step_reuses_last (d : Dataset) (s : NCState) (q tlast : ℚ)
    (hlast : d.time.getLast? = some tlast) (hq : tlast < q) :
    ∃ s1, getTimeInfo d s q = some s1
      ∧ s1.time_step = d.time.length - 1 ∧ s1.more_time = false
      ∧ ∀ (W : Averager) (s2 : NCState) (eta_index xi_index : Arr4 Nat) (dist : Arr4 ℚ)
          (vals : Field4), s2.time_step = s1.time_step → s2.more_time = s1.more_time →
          calcValue W d s2 eta_index xi_index dist vals
            = (getValueAtTime W d s2 (d.time.length - 1) eta_index xi_index dist vals).map
                (fun v => (v, { s2 with time_message_posted := true })) := by
  have hstep := timeScan_past_last q d.time 0 s.time_step tlast hlast hq
  rw [Nat.zero_add] at hstep
  refine ⟨{ s with time_step := d.time.length - 1, more_time := false }, ?_, rfl, rfl, ?_⟩
  · unfold getTimeInfo
    simp only [hlast, hstep]
    rw [if_pos (Or.inl hq)]
  · intro W s2 eta_index xi_index dist vals hts hmt
    simp only at hts hmt
    unfold calcValue
    rw [hmt, hts]
    simp only [Bool.false_eq_true, if_false]
    cases getValueAtTime W d s2 (d.time.length - 1) eta_index xi_index dist vals <;> rfl

/-- C13 on the axis `[0, 10]` at the query time 20. -/
theorem C13_past_last_step_reuses_last_witness :
    demoTwo.time.getLast? = some 10 ∧ (10 : ℚ) < 20
      ∧ ∃ s1, getTimeInfo demoTwo state0 20 = some s1
        ∧ s1.time_step = demoTwo.time.length - 1 ∧ s1.more_time = false
        ∧ ∀ (W : Averager) (s2 : NCState) (eta_index xi_index : Arr4 Nat) (dist : Arr4 ℚ)
            (vals : Field4), s2.time_step = s1.time_step → s2.more_time = s1.more_time →
            calcValue W demoTwo s2 eta_index xi_index dist vals
              = (getValueAtTime W demoTwo s2 (demoTwo.time.length - 1) eta_index xi_index dist
                  vals).map (fun v => (v, { s2 with time_message_posted := true })) :=
  ⟨by decide!, by decide!,
    C13_past_last_step_reuses_last demoTwo state0 20 10 (by decide!) (by decide!)⟩

/-- One call of `getTimeInfo` on a single-entry axis, from `time_step = 0`. -/
theorem getTimeInfo_single_entry (d : Dataset) (s : NCState) (q : ℚ)
    (h1 : d.time.length = 1) (hs : s.time_step = 0) :
    getTimeInfo d s q = some { s with time_step := 0, more_time := false } := by
  match hd : d.time, h1 with
  | [a], _ =>
    unfold getTimeInfo
    simp only [hd, timeScan, hs, List.getLast?_singleton, List.length_singleton, or_true,
      if_true, ite_self]

/-- C19: on a time axis with exactly one entry, every non-empty sequence of
`getTimeInfo` calls on a constructed engine is defined and leaves `more_time = false` and
`time_step = 0`. -/
theorem C19_single_entry_axis (d : Dataset) (s : NCState) (qs : List ℚ)
    (h1 : d.time.length = 1) (hs : Constructed s) (hqs : qs ≠ []) :
    ∃ s1, getTimeInfoSeq d s qs = some s1 ∧ s1.more_time = false ∧ s1.time_step = 0 := by
  have hs0 : s.time_step = 0 := hs.1
  clear hs
  induction qs generalizing s with
  | nil => exact absurd rfl hqs
  | cons q rest ih =>
    simp only [getTimeInfoSeq, getTimeInfo_single_entry d s q h1 hs0]
    cases rest with
    | nil => exact ⟨_, rfl, rfl, rfl⟩
    | cons q1 rest1 => exact ih _ (by simp) rfl

/-- C19 on the axis `[0]` with query times before, at and after the timestamp. -/
theorem C19_single_entry_axis_witness :
    demo.time.length = 1 ∧ Constructed state0 ∧ ([-5, 0, 7] : List ℚ) ≠ []
      ∧ ∃ s1, getTimeInfoSeq demo state0 [-5, 0, 7] = some s1
        ∧ s1.more_time = false ∧ s1.time_step = 0 :=
  ⟨by decide!, by decide!, by decide!,
    C19_single_entry_axis demo state0 [-5, 0, 7] (by decide!) (by decide!) (by decide!)⟩

/-- C20: on the strictly increasing axis `[0, 10]`, the call `getTimeInfo(20)` leaves
`time_step = 1`; the next call `getTimeInfo(0)` meets no earlier timestamp, keeps
`time_step = 1`, takes the `more_time` branch and reads `time[2]`, past the end of the axis,
so it has no defined result.  On the axis `[0, 10, 20]` the calls `getTimeInfo(15)`,
`getTimeInfo(0)` leave the bracket of the earlier query (`time_step = 1`,
`time_since = -10`), while a constructed engine gives `time_step = 0` for the query time 0. -/
theorem C20_stale_time_step :
    (getTimeInfoSeq demoTwo state0 [20]).map (fun s => (s.time_step, s.more_time))
        = some (1, false)
      ∧ timeScan 0 demoTwo.time 0 1 = 1
      ∧ ¬ ((0 : ℚ) > 10 ∨ demoTwo.time.length = 1)
      ∧ demoTwo.time[1 + 1]? = none
      ∧ getTimeInfoSeq demoTwo state0 [20, 0] = none
      ∧ (getTimeInfoSeq demoThree state0 [15, 0]).map
          (fun s => (s.time_step, s.more_time, s.time_since, s.time_until))
        = some (1, true, -10, 20)
      ∧ (getTimeInfoSeq demoThree state0 [0]).map
          (fun s => (s.time_step, s.more_time, s.time_since, s.time_until))
        = some (0, true, 0, 10) := by
  decide!

/-! ## XYtoIndex: order of the slots and the search radius -/

/-- C14: on the regular 2 × 2 grid with eastings 0, 7 and northings 0, 12 and the query
point `(-9, 12)`, `XYtoIndex` returns true with the distances 9, 15, 20, 16: the last node,
at distance 16, fails the third test (which swaps `x` and `y`) and lands in slot 3 behind the
node at distance 20. -/
theorem C14_distances_not_ascending :
    XYtoIndex sqrtQ (-9) 12 (regularGrid 2 2 7 12)
        = some (true, { l_eta := ⟨1, 0, 0, 1⟩, l_xi := ⟨0, 0, 1, 1⟩,
                        l_dist := ⟨9, 15, 20, 16⟩ })
      ∧ ¬ ((20 : ℚ) ≤ 16) := by
  decide!

/-- C15: on the regular 2 × 2 grid with eastings 0, 10 and northings 0, 12 and the query
point `(5, 0)`, the cells `(1, 0)` and `(1, 1)` are both at distance 13; `XYtoIndex` returns
the later cell `(1, 1)` in slot 2 and the earlier cell `(1, 0)` in slot 3. -/
theorem C15_later_tie_takes_lower_slot :
    XYtoIndex sqrtQ 5 0 (regularGrid 2 2 10 12)
        = some (true, { l_eta := ⟨0, 0, 1, 1⟩, l_xi := ⟨0, 1, 1, 0⟩,
                        l_dist := ⟨5, 5, 13, 13⟩ })
      ∧ ((regularGrid 2 2 10 12).meters_n 1 0 - 0) ^ 2
          + ((regularGrid 2 2 10 12).meters_e 1 0 - 5) ^ 2 = 13 ^ 2
      ∧ ((regularGrid 2 2 10 12).meters_n 1 1 - 0) ^ 2
          + ((regularGrid 2 2 10 12).meters_e 1 1 - 5) ^ 2 = 13 ^ 2 := by
  decide!

/-- C16: on the 2 × 3 grid `grid23b` the query point `(3, 0)` is the node `(0, 2)`; the
scan stops at column 1, and `XYtoIndex` returns true with the nearest distance 3 at the
cell `(0, 0)`. -/
theorem C16_coincident_node_not_scanned :
    XYtoIndex sqrtQ 3 0 grid23b
        = some (true, { l_eta := ⟨0, 0, 1, 1⟩, l_xi := ⟨0, 1, 0, 1⟩,
                        l_dist := ⟨3, 3, 5, 5⟩ })
      ∧ (0 < grid23b.size_eta ∧ 2 < grid23b.size_xi)
      ∧ (grid23b.meters_e 0 2 = 3 ∧ grid23b.meters_n 0 2 = 0) := by
  decide!

/-- C17: on the regular 2 × 2 grid with eastings 0, 4 and northings 0, 12 and the query
point `(9, 0)`, the search with radius 10 succeeds (slots 5, 9, 13, 15) and the search with
radius 13 fails: the node at distance 13 enters through the third test and its distance
equals the radius. -/
theorem C17_larger_radius_fails :
    XYtoIndexR sqrtQ 10 9 0 (regularGrid 2 2 4 12)
        = some (true, { l_eta := ⟨0, 0, 1, 1⟩, l_xi := ⟨1, 0, 1, 0⟩,
                        l_dist := ⟨5, 9, 13, 15⟩ })
      ∧ XYtoIndexR sqrtQ 13 9 0 (regularGrid 2 2 4 12)
        = some (false, { l_eta := ⟨0, 0, 0, 0⟩, l_xi := ⟨0, 0, 0, 0⟩,
                         l_dist := ⟨5, 9, 13, 15⟩ })
      ∧ (10 : ℚ) ≤ 13 := by
  decide!

/-! ## getS_rho: the two sentinels -/

/-- C18: for every sigma array with at least one level, `getS_rho` is defined, and if it
sets `dist_sigma` and `dist_sp1` both to `-1` the array has exactly one level; with two or
more levels the two are never both `-1`. -/
theorem C18_sentinels_both_only_one_level (d : Dataset) (s : NCState) (depth altitude : ℚ)
    (hne : d.s_values ≠ []) :
    ∃ s1, getS_rho d s depth altitude = some s1
      ∧ (s1.dist_sigma = -1 ∧ s1.dist_sp1 = -1 → d.s_values.length = 1)
      ∧ (2 ≤ d.s_values.length → ¬ (s1.dist_sigma = -1 ∧ s1.dist_sp1 = -1)) := by
  obtain ⟨s1, hS, _, _, _, hsig2, _, hsp2⟩ := getS_rho_spec d s depth altitude
  obtain ⟨_, hle, hbelow, hstop⟩ :=
    levelScan_spec depth (d.s_values.map (fun sv => -sv * (depth + altitude))) 0
  rw [List.length_map, Nat.zero_add] at hle
  generalize hr : levelScan depth (d.s_values.map (fun sv => -sv * (depth + altitude))) 0 = r
    at hle hsig2 hsp2 hbelow hstop
  have hlen : 0 < d.s_values.length := List.length_pos.mpr hne
  have hboth : s1.dist_sigma = -1 ∧ s1.dist_sp1 = -1 → d.s_values.length = 1 := by
    rintro ⟨hsig, hsp⟩
    have hr1 : r ≤ 1 := by
      by_contra hc
      obtain ⟨sv, hsv, hd⟩ := hsig2 (by omega)
      have := hbelow (r - 1) (-sv * (depth + altitude))
        (by rw [List.getElem?_map, hsv]; rfl) (by omega)
      rw [hsig] at hd
      linarith
    have hrl : r = d.s_values.length := by
      by_contra hc
      obtain ⟨sv, hsv, hd⟩ := hsp2 hc
      have := hstop (-sv * (depth + altitude))
        (by rw [Nat.sub_zero, List.getElem?_map, hsv]; rfl)
      rw [hsp] at hd
      linarith
    omega
  exact ⟨s1, hS, hboth, fun h2 hb => by have := hboth hb; omega⟩

/-- C18 at the five-level example. -/
theorem C18_sentinels_both_only_one_level_witness :
    demoFive.s_values ≠ []
      ∧ ∃ s1, getS_rho demoFive state0 (3 / 2) (17 / 2) = some s1
        ∧ (s1.dist_sigma = -1 ∧ s1.dist_sp1 = -1 → demoFive.s_values.length = 1)
        ∧ (2 ≤ demoFive.s_values.length → ¬ (s1.dist_sigma = -1 ∧ s1.dist_sp1 = -1)) :=
  ⟨by decide!, C18_sentinels_both_only_one_level demoFive state0 (3 / 2) (17 / 2) (by decide!)⟩

/-! ## XYtoIndex with an exact sqrt: where the order and the coincident node hold -/

/-- One step of the scan keeps the distances ascending when the query point has `x = y`, so
that the third test agrees with its siblings, and `sqrt` is exact at the node. -/
theorem xyStep_ascending (sqrt : ℚ → ℚ) (x n e : ℚ) (j i : Nat) (l : Near)
    (h0 : 0 ≤ sqrt ((n - x) ^ 2 + (e - x) ^ 2))
    (hsq : sqrt ((n - x) ^ 2 + (e - x) ^ 2) ^ 2 = (n - x) ^ 2 + (e - x) ^ 2)
    (hl : Ascending l.l_dist) : Ascending (xyStep sqrt x x n e j i l).l_dist := by
  obtain ⟨ha0, h01, h12, h23⟩ := hl
  have ha1 : 0 ≤ l.l_dist.a1 := le_trans ha0 h01
  have ha2 : 0 ≤ l.l_dist.a2 := le_trans ha1 h12
  have ha3 : 0 ≤ l.l_dist.a3 := le_trans ha2 h23
  unfold xyStep
  generalize sqrt ((n - x) ^ 2 + (e - x) ^ 2) = w at h0 hsq
  have hlt : ∀ a : ℚ, 0 ≤ a → (n - x) ^ 2 + (e - x) ^ 2 < a ^ 2 → w ≤ a := by
    intro a ha h
    rw [← hsq] at h
    by_contra hc
    have hc1 : a < w := not_le.mp hc
    nlinarith
  have hge : ∀ a : ℚ, 0 ≤ a → ¬ ((n - x) ^ 2 + (e - x) ^ 2 < a ^ 2) → a ≤ w := by
    intro a ha h
    rw [← hsq] at h
    by_contra hc
    have hc1 : w < a := not_le.mp hc
    apply h
    nlinarith
  by_cases c0 : (n - x) ^ 2 + (e - x) ^ 2 < l.l_dist.a0 ^ 2
  · rw [if_pos c0]
    exact ⟨h0, hlt _ ha0 c0, h01, h12⟩
  · rw [if_neg c0]
    by_cases c1 : (n - x) ^ 2 + (e - x) ^ 2 < l.l_dist.a1 ^ 2
    · rw [if_pos c1]
      exact ⟨ha0, hge _ ha0 c0, hlt _ ha1 c1, h12⟩
    · rw [if_neg c1]
      by_cases c2 : (n - x) ^ 2 + (e - x) ^ 2 < l.l_dist.a2 ^ 2
      · rw [if_pos c2]
        exact ⟨ha0, h01, hge _ ha1 c1, hlt _ ha2 c2⟩
      · rw [if_neg c2]
        by_cases c3 : (n - x) ^ 2 + (e - x) ^ 2 < l.l_dist.a3 ^ 2
        · rw [if_pos c3]
          exact ⟨ha0, h01, h12, hge _ ha2 c2⟩
        · rw [if_neg c3]
          exact ⟨ha0, h01, h12, h23⟩

/-- Scanning a row keeps the distances ascending, for `x = y` and an exact `sqrt`. -/
theorem scanRow_ascending (sqrt : ℚ → ℚ) (x : ℚ) (g : Grid) (j : Nat)
    (hex : ExactSqrtOn sqrt x x g) :
    ∀ (is : List Nat) (l l1 : Near), scanRow sqrt x x g j is l = some l1 →
      Ascending l.l_dist → Ascending l1.l_dist := by
  intro is
  induction is with
  | nil =>
    intro l l1 h hl
    simp only [scanRow, Option.some.injEq] at h
    rw [← h]; exact hl
  | cons i is ih =>
    intro l l1 h hl
    unfold scanRow at h
    unfold Grid.read at h
    by_cases hin : j < g.size_eta ∧ i < g.size_xi
    · rw [if_pos hin] at h
      exact ih _ l1 h (xyStep_ascending sqrt x _ _ j i l (hex j i hin.1 hin.2).1
        (hex j i hin.1 hin.2).2 hl)
    · rw [if_neg hin] at h
      exact absurd h (by simp)

/-- Scanning the grid keeps the distances ascending, for `x = y` and an exact `sqrt`. -/
theorem scanGrid_ascending (sqrt : ℚ → ℚ) (x : ℚ) (g : Grid)
    (hex : ExactSqrtOn sqrt x x g) :
    ∀ (js : List Nat) (l l1 : Near), scanGrid sqrt x x g js l = some l1 →
      Ascending l.l_dist → Ascending l1.l_dist := by
  intro js
  induction js with
  | nil =>
    intro l l1 h hl
    simp only [scanGrid, Option.some.injEq] at h
    rw [← h]; exact hl
  | cons j js ih =>
    intro l l1 h hl
    unfold scanGrid at h
    cases hrow : scanRow sqrt x x g j (List.range g.size_eta) l with
    | none => rw [hrow] at h; exact absurd h (by simp)
    | some l2 =>
      rw [hrow] at h
      exact ih l2 l1 h (scanRow_ascending sqrt x g j hex _ l l2 hrow hl)

/-- For a query point with `x = y`, where the third test of the scan agrees with its
siblings, and an exact `sqrt`, the distances `XYtoIndex` returns are ascending. -/
theorem XYtoIndex_ascending_on_diagonal (sqrt : ℚ → ℚ) (x : ℚ) (g : Grid)
    (hex : ExactSqrtOn sqrt x x g) (ok : Bool) (l : Near)
    (hX : XYtoIndex sqrt x x g = some (ok, l)) : Ascending l.l_dist := by
  unfold XYtoIndex at hX
  cases hscan : scanGrid sqrt x x g (List.range g.size_eta) nearInit with
  | none => rw [hscan] at hX; exact absurd hX (by simp)
  | some l1 =>
    rw [hscan] at hX
    have hasc : Ascending l1.l_dist :=
      scanGrid_ascending sqrt x g hex _ nearInit l1 hscan
        ⟨by unfold nearInit chk_dist; norm_num, le_refl _, le_refl _, le_refl _⟩
    dsimp only at hX
    split at hX
    · simp only [Option.some.injEq, Prod.mk.injEq] at hX
      rw [← hX.2]; exact hasc
    · simp only [Option.some.injEq, Prod.mk.injEq] at hX
      rw [← hX.2]; exact hasc


/-- One step of the scan at a node of the grid, with an exact `sqrt`: slot 0 at distance
zero still holds a node at `(x, y)`, a zero in slot 0 stays, and a node at `(x, y)` leaves a
zero in slot 0. -/
theorem xyStep_zero (sqrt : ℚ → ℚ) (x y : ℚ) (g : Grid) (j i : Nat) (l : Near)
    (hj : j < g.size_eta) (hi : i < g.size_xi)
    (hsq : sqrt ((g.meters_n j i - y) ^ 2 + (g.meters_e j i - x) ^ 2) ^ 2
      = (g.meters_n j i - y) ^ 2 + (g.meters_e j i - x) ^ 2) :
    (ZeroIsNode x y g l → ZeroIsNode x y g (xyStep sqrt x y (g.meters_n j i) (g.meters_e j i) j i l))
      ∧ (l.l_dist.a0 = 0 →
          (xyStep sqrt x y (g.meters_n j i) (g.meters_e j i) j i l).l_dist.a0 = 0)
      ∧ (g.meters_e j i = x → g.meters_n j i = y →
          (xyStep sqrt x y (g.meters_n j i) (g.meters_e j i) j i l).l_dist.a0 = 0) := by
  have hd2 : 0 ≤ (g.meters_n j i - y) ^ 2 + (g.meters_e j i - x) ^ 2 := by positivity
  unfold xyStep ZeroIsNode
  generalize sqrt ((g.meters_n j i - y) ^ 2 + (g.meters_e j i - x) ^ 2) = w at hsq
  by_cases c0 : (g.meters_n j i - y) ^ 2 + (g.meters_e j i - x) ^ 2 < l.l_dist.a0 ^ 2
  · rw [if_pos c0]
    refine ⟨fun _ hw => ?_, fun hz => ?_, fun he hn => ?_⟩
    · dsimp only at hw ⊢
      rw [hw] at hsq
      have hA := sq_nonneg (g.meters_n j i - y)
      have hB := sq_nonneg (g.meters_e j i - x)
      have h00 : (0 : ℚ) ^ 2 = 0 := by norm_num
      have hn : (g.meters_n j i - y) ^ 2 = 0 := by linarith
      have he : (g.meters_e j i - x) ^ 2 = 0 := by linarith
      have hn1 : g.meters_n j i - y = 0 := (pow_eq_zero_iff two_ne_zero).mp hn
      have he1 : g.meters_e j i - x = 0 := (pow_eq_zero_iff two_ne_zero).mp he
      exact ⟨hj, hi, by linarith, by linarith⟩
    · rw [hz] at c0
      have h00 : (0 : ℚ) ^ 2 = 0 := by norm_num
      rw [h00] at c0
      exact absurd c0 (not_lt.mpr hd2)
    · dsimp only
      rw [he, hn] at hsq
      have h00 : (y - y) ^ 2 + (x - x) ^ 2 = (0 : ℚ) := by ring
      rw [h00] at hsq
      exact (pow_eq_zero_iff two_ne_zero).mp hsq
  · rw [if_neg c0]
    have hkeep : ∀ l2 : Near, l2.l_dist.a0 = l.l_dist.a0 → l2.l_eta.a0 = l.l_eta.a0 →
        l2.l_xi.a0 = l.l_xi.a0 →
        ((l.l_dist.a0 = 0 → l.l_eta.a0 < g.size_eta ∧ l.l_xi.a0 < g.size_xi
            ∧ g.meters_e l.l_eta.a0 l.l_xi.a0 = x ∧ g.meters_n l.l_eta.a0 l.l_xi.a0 = y) →
          (l2.l_dist.a0 = 0 → l2.l_eta.a0 < g.size_eta ∧ l2.l_xi.a0 < g.size_xi
            ∧ g.meters_e l2.l_eta.a0 l2.l_xi.a0 = x ∧ g.meters_n l2.l_eta.a0 l2.l_xi.a0 = y))
        ∧ (l.l_dist.a0 = 0 → l2.l_dist.a0 = 0)
        ∧ (g.meters_e j i = x → g.meters_n j i = y → l2.l_dist.a0 = 0) := by
      intro l2 hd he hx
      rw [hd, he, hx]
      refine ⟨fun h => h, fun h => h, fun hex hny => ?_⟩
      rw [hex, hny] at c0
      have h00 : (y - y) ^ 2 + (x - x) ^ 2 = (0 : ℚ) := by ring
      rw [h00] at c0
      have hz : l.l_dist.a0 ^ 2 = 0 := le_antisymm (not_lt.mp c0) (sq_nonneg l.l_dist.a0)
      exact (pow_eq_zero_iff two_ne_zero).mp hz
    split_ifs
    · exact hkeep _ rfl rfl rfl
    · exact hkeep _ rfl rfl rfl
    · exact hkeep _ rfl rfl rfl
    · exact hkeep _ rfl rfl rfl

/-- Scanning a row, with an exact `sqrt`: slot 0 at distance zero still holds a node at
`(x, y)`, and a zero in slot 0 stays. -/
theorem scanRow_zero_keep (sqrt : ℚ → ℚ) (x y : ℚ) (g : Grid) (j : Nat)
    (hex : ExactSqrtOn sqrt x y g) :
    ∀ (is : List Nat) (l l1 : Near), scanRow sqrt x y g j is l = some l1 →
      ZeroIsNode x y g l →
      ZeroIsNode x y g l1 ∧ (l.l_dist.a0 = 0 → l1.l_dist.a0 = 0) := by
  intro is
  induction is with
  | nil =>
    intro l l1 h hl
    simp only [scanRow, Option.some.injEq] at h
    rw [← h]
    exact ⟨hl, fun h0 => h0⟩
  | cons i is ih =>
    intro l l1 h hl
    unfold scanRow at h
    unfold Grid.read at h
    by_cases hin : j < g.size_eta ∧ i < g.size_xi
    · rw [if_pos hin] at h
      obtain ⟨hP, hZ, _⟩ := xyStep_zero sqrt x y g j i l hin.1 hin.2 (hex j i hin.1 hin.2).2
      obtain ⟨hP1, hZ1⟩ := ih _ l1 h (hP hl)
      exact ⟨hP1, fun h0 => hZ1 (hZ h0)⟩
    · rw [if_neg hin] at h
      exact absurd h (by simp)

/-- Scanning a row that holds a node `(j, i0)` at `(x, y)` among the scanned columns
leaves a zero in slot 0. -/
theorem scanRow_zero_hit (sqrt : ℚ → ℚ) (x y : ℚ) (g : Grid) (j i0 : Nat)
    (hex : ExactSqrtOn sqrt x y g) (he : g.meters_e j i0 = x) (hn : g.meters_n j i0 = y) :
    ∀ (is : List Nat) (l l1 : Near), scanRow sqrt x y g j is l = some l1 →
      ZeroIsNode x y g l → i0 ∈ is → l1.l_dist.a0 = 0 := by
  intro is
  induction is with
  | nil => intro l l1 _ _ hmem; exact absurd hmem (List.not_mem_nil i0)
  | cons i is ih =>
    intro l l1 h hl hmem
    unfold scanRow at h
    unfold Grid.read at h
    by_cases hin : j < g.size_eta ∧ i < g.size_xi
    · rw [if_pos hin] at h
      obtain ⟨hP, _, hC⟩ := xyStep_zero sqrt x y g j i l hin.1 hin.2 (hex j i hin.1 hin.2).2
      rcases List.mem_cons.mp hmem with heq | hrest
      · subst heq
        exact (scanRow_zero_keep sqrt x y g j hex is _ l1 h (hP hl)).2 (hC he hn)
      · exact ih _ l1 h (hP hl) hrest
    · rw [if_neg hin] at h
      exact absurd h (by simp)

/-- Scanning the grid, with an exact `sqrt`: slot 0 at distance zero still holds a node at
`(x, y)`, a zero in slot 0 stays, and a node `(j0, i0)` at `(x, y)` in a scanned row and a
scanned column leaves a zero in slot 0. -/
theorem scanGrid_zero (sqrt : ℚ → ℚ) (x y : ℚ) (g : Grid) (j0 i0 : Nat)
    (hex : ExactSqrtOn sqrt x y g) (hi0 : i0 < g.size_eta)
    (he : g.meters_e j0 i0 = x) (hn : g.meters_n j0 i0 = y) :
    ∀ (js : List Nat) (l l1 : Near), scanGrid sqrt x y g js l = some l1 →
      ZeroIsNode x y g l →
      ZeroIsNode x y g l1 ∧ (l.l_dist.a0 = 0 → l1.l_dist.a0 = 0)
        ∧ (j0 ∈ js → l1.l_dist.a0 = 0) := by
  intro js
  induction js with
  | nil =>
    intro l l1 h hl
    simp only [scanGrid, Option.some.injEq] at h
    rw [← h]
    exact ⟨hl, fun h0 => h0, fun hmem => absurd hmem (List.not_mem_nil j0)⟩
  | cons j js ih =>
    intro l l1 h hl
    unfold scanGrid at h
    cases hrow : scanRow sqrt x y g j (List.range g.size_eta) l with
    | none => rw [hrow] at h; exact absurd h (by simp)
    | some l2 =>
      rw [hrow] at h
      obtain ⟨hP, hZ⟩ := scanRow_zero_keep sqrt x y g j hex _ l l2 hrow hl
      obtain ⟨hP1, hZ1, hC1⟩ := ih l2 l1 h hP
      refine ⟨hP1, fun h0 => hZ1 (hZ h0), fun hmem => ?_⟩
      rcases List.mem_cons.mp hmem with heq | hrest
      · subst heq
        exact hZ1 (scanRow_zero_hit sqrt x y g j0 i0 hex he hn _ l l2 hrow hl
          (List.mem_range.mpr hi0))
      · exact hC1 hrest

/-- With an exact `sqrt`, a query point that is a node of the grid in a scanned column
(`i0 < size_eta`), and a search that returns true: the nearest distance is 0 and slot 0 holds
the index of a node located at `(x, y)`. -/
theorem XYtoIndex_coincident_scanned (sqrt : ℚ → ℚ) (x y : ℚ) (g : Grid) (j0 i0 : Nat)
    (hex : ExactSqrtOn sqrt x y g) (hj0 : j0 < g.size_eta) (hi0 : i0 < g.size_eta)
    (he : g.meters_e j0 i0 = x) (hn : g.meters_n j0 i0 = y) (l : Near)
    (hX : XYtoIndex sqrt x y g = some (true, l)) :
    l.l_dist.a0 = 0 ∧ l.l_eta.a0 < g.size_eta ∧ l.l_xi.a0 < g.size_xi
      ∧ g.meters_e l.l_eta.a0 l.l_xi.a0 = x ∧ g.meters_n l.l_eta.a0 l.l_xi.a0 = y := by
  unfold XYtoIndex at hX
  cases hscan : scanGrid sqrt x y g (List.range g.size_eta) nearInit with
  | none => rw [hscan] at hX; exact absurd hX (by simp)
  | some l1 =>
    rw [hscan] at hX
    have hinit : ZeroIsNode x y g nearInit := by
      intro h
      unfold nearInit chk_dist at h
      norm_num at h
    obtain ⟨hP, _, hC⟩ := scanGrid_zero sqrt x y g j0 i0 hex hi0 he hn _ nearInit l1 hscan hinit
    have hz := hC (List.mem_range.mpr hj0)
    dsimp only at hX
    split at hX
    · simp at hX
    · simp only [Option.some.injEq, Prod.mk.injEq, true_and] at hX
      rw [← hX]
      exact ⟨hz, hP hz⟩

/-- The stand-in `sqrtQ` is exact on the regular 2 × 2 grid with spacings 3 and 4 seen from
the node `(0, 0)`: the distances are 0, 3, 4, 5. -/
theorem exactSqrtOn_example : ExactSqrtOn sqrtQ 0 0 (regularGrid 2 2 3 4) := by
  intro j i hj hi
  have hj2 : j < 2 := hj
  have hi2 : i < 2 := hi
  interval_cases j <;> interval_cases i <;> decide!

/-- The two theorems above at the regular 2 × 2 grid with spacings 3 and 4 and the query
point `(0, 0)`, which is the node `(0, 0)`. -/
theorem XYtoIndex_on_diagonal_example :
    XYtoIndex sqrtQ 0 0 (regularGrid 2 2 3 4)
        = some (true, { l_eta := ⟨0, 0, 1, 1⟩, l_xi := ⟨0, 1, 0, 1⟩, l_dist := ⟨0, 3, 4, 5⟩ })
      ∧ Ascending (⟨0, 3, 4, 5⟩ : Arr4 ℚ)
      ∧ ((0 : ℚ) = 0 ∧ (0 : Nat) < 2 ∧ (0 : Nat) < 2
          ∧ (regularGrid 2 2 3 4).meters_e 0 0 = 0 ∧ (regularGrid 2 2 3 4).meters_n 0 0 = 0) :=
  have hX : XYtoIndex sqrtQ 0 0 (regularGrid 2 2 3 4)
      = some (true, { l_eta := ⟨0, 0, 1, 1⟩, l_xi := ⟨0, 1, 0, 1⟩, l_dist := ⟨0, 3, 4, 5⟩ }) := by
    decide!
  ⟨hX, XYtoIndex_ascending_on_diagonal sqrtQ 0 (regularGrid 2 2 3 4) exactSqrtOn_example true _ hX,
    XYtoIndex_coincident_scanned sqrtQ 0 0 (regularGrid 2 2 3 4) 0 0 exactSqrtOn_example
      (by decide) (by decide) (by decide!) (by decide!) _ hX⟩

/-! ## getS_rho and getValueAtTime: the brackets in use -/

/-- The brackets `getS_rho` leaves in use, in terms of the state it returns: a bracket whose
distance is not the sentinel has its level index `s_level + k` in `[0, s_rho - 1]` and a
distance that is not negative; the distances computed from two levels are never the
sentinel. -/
theorem getS_rho_brackets (d : Dataset) (s : NCState) (depth altitude : ℚ) :
    ∃ s1, getS_rho d s depth altitude = some s1
      ∧ (s1.dist_sigma ≠ -1 →
          0 ≤ s1.s_level + 0 ∧ s1.s_level + 0 ≤ (d.s_values.length : Int) - 1
            ∧ 0 ≤ s1.dist_sigma)
      ∧ (s1.dist_sp1 ≠ -1 →
          0 ≤ s1.s_level + 1 ∧ s1.s_level + 1 ≤ (d.s_values.length : Int) - 1
            ∧ 0 ≤ s1.dist_sp1)
      ∧ (0 < s1.s_level → s1.dist_sigma ≠ -1)
      ∧ (s1.s_level ≠ (d.s_values.length : Int) - 1 → s1.dist_sp1 ≠ -1) := by
  obtain ⟨s1, hS, hlev, _, hsig1, hsig2, hsp1, hsp2⟩ := getS_rho_spec d s depth altitude
  obtain ⟨_, hle, hbelow, hstop⟩ :=
    levelScan_spec depth (d.s_values.map (fun sv => -sv * (depth + altitude))) 0
  rw [List.length_map, Nat.zero_add] at hle
  generalize hr : levelScan depth (d.s_values.map (fun sv => -sv * (depth + altitude))) 0 = r
    at hle hlev hsig1 hsig2 hsp1 hsp2 hbelow hstop
  have hpos : 2 ≤ r → 0 < s1.dist_sigma := by
    intro h2
    obtain ⟨sv, hsv, hd⟩ := hsig2 h2
    have := hbelow (r - 1) (-sv * (depth + altitude))
      (by rw [List.getElem?_map, hsv]; rfl) (by omega)
    rw [hd]; linarith
  have hnn : r ≠ d.s_values.length → 0 ≤ s1.dist_sp1 := by
    intro hne
    obtain ⟨sv, hsv, hd⟩ := hsp2 hne
    have := hstop (-sv * (depth + altitude))
      (by rw [Nat.sub_zero, List.getElem?_map, hsv]; rfl)
    rw [hd]; linarith
  refine ⟨s1, hS, ?_, ?_, ?_, ?_⟩
  · intro hne
    have h2 : 2 ≤ r := by
      by_contra hc
      exact hne (hsig1 (by omega))
    exact ⟨by omega, by omega, le_of_lt (hpos h2)⟩
  · intro hne
    have hrl : r ≠ d.s_values.length := fun h => hne (hsp1 h)
    exact ⟨by omega, by omega, hnn hrl⟩
  · intro hlevpos
    have := hpos (by omega)
    intro h
    rw [h] at this
    norm_num at this
  · intro hlast
    have := hnn (by omega)
    intro h
    rw [h] at this
    norm_num at this


/-- A read of a field with `ns` levels at a level index in `[0, ns - 1]` and the other
indices in range is defined. -/
theorem Field4_read_in_range (vals : Field4) (t : Nat) (k : Int) (j i : Nat)
    (hk0 : 0 ≤ k) (hk : k ≤ (vals.ns : Int) - 1) (ht : t < vals.nt) (hj : j < vals.neta)
    (hi : i < vals.nxi) : vals.read t k j i = some (vals.v t k.toNat j i) := by
  unfold Field4.read
  rw [if_pos ⟨hk0, ht, by omega, hj, hi⟩]

/-- C21: for every sigma array and every depth and altitude, `getS_rho` is defined, and each
bracket `k` that `getValueAtTime` uses (`dz[k] ≠ -1`) has its level index `s_level + k` in
`[0, s_rho - 1]` and a distance that is not negative, so that the read
`vals[t][s_level + k][eta][xi]` of a field with `s_rho` levels is in range; the distances
computed from two levels (`s_level > 0` for `dist_sigma`, `s_level ≠ s_rho - 1` for
`dist_sp1`) are never the sentinel `-1`. -/
theorem C21_used_brackets_in_range (d : Dataset) (s : NCState) (depth altitude : ℚ) :
    ∃ s1, getS_rho d s depth altitude = some s1
      ∧ (s1.dist_sigma ≠ -1 →
          0 ≤ s1.s_level + 0 ∧ s1.s_level + 0 ≤ (d.s_values.length : Int) - 1
            ∧ 0 ≤ s1.dist_sigma)
      ∧ (s1.dist_sp1 ≠ -1 →
          0 ≤ s1.s_level + 1 ∧ s1.s_level + 1 ≤ (d.s_values.length : Int) - 1
            ∧ 0 ≤ s1.dist_sp1)
      ∧ (0 < s1.s_level → s1.dist_sigma ≠ -1)
      ∧ (s1.s_level ≠ (d.s_values.length : Int) - 1 → s1.dist_sp1 ≠ -1)
      ∧ ∀ (vals : Field4) (t j i : Nat), vals.ns = d.s_values.length → t < vals.nt →
          j < vals.neta → i < vals.nxi →
          (s1.dist_sigma ≠ -1 → ∃ v, vals.read t (s1.s_level + 0) j i = some v)
            ∧ (s1.dist_sp1 ≠ -1 → ∃ v, vals.read t (s1.s_level + 1) j i = some v) := by
  obtain ⟨s1, hS, hsig, hsp, hg0, hg1⟩ := getS_rho_brackets d s depth altitude
  refine ⟨s1, hS, hsig, hsp, hg0, hg1, ?_⟩
  intro vals t j i hns ht hj hi
  constructor
  · intro h
    obtain ⟨h0, h1, _⟩ := hsig h
    exact ⟨_, Field4_read_in_range vals t _ j i h0 (by rw [hns]; exact h1) ht hj hi⟩
  · intro h
    obtain ⟨h0, h1, _⟩ := hsp h
    exact ⟨_, Field4_read_in_range vals t _ j i h0 (by rw [hns]; exact h1) ht hj hi⟩

/-- C21 at the five-level example (depth 1.5, floor depth 10): `s_level = 1`, both brackets
are in use, with the level indices 1 and 2. -/
theorem C21_used_brackets_in_range_witness :
    ∃ s1, getS_rho demoFive state0 (3 / 2) (17 / 2) = some s1
      ∧ s1.dist_sigma ≠ -1 ∧ s1.dist_sp1 ≠ -1
      ∧ (0 ≤ s1.s_level + 0 ∧ s1.s_level + 0 ≤ (demoFive.s_values.length : Int) - 1
          ∧ 0 ≤ s1.dist_sigma)
      ∧ (0 ≤ s1.s_level + 1 ∧ s1.s_level + 1 ≤ (demoFive.s_values.length : Int) - 1
          ∧ 0 ≤ s1.dist_sp1) :=
  match C21_used_brackets_in_range demoFive state0 (3 / 2) (17 / 2) with
  | ⟨s1, hS, hsig, hsp, _⟩ =>
    have hne : s1.dist_sigma ≠ -1 ∧ s1.dist_sp1 ≠ -1 := by
      have h : getS_rho demoFive state0 (3 / 2) (17 / 2)
          = some { state0 with floor_depth := 10, s_level := 1, dist_sigma := 1 / 5,
                               dist_sp1 := 3 / 10 } := by decide!
      rw [h] at hS
      simp only [Option.some.injEq] at hS
      subst hS
      exact ⟨by decide!, by decide!⟩
    ⟨s1, hS, hne.1, hne.2, hsig hne.1, hsp hne.2⟩

/-! ## getTimeInfo: the signs of the two weights -/

/-- The two weights `getTimeInfo` leaves on a constructed engine when `more_time` is true:
`time_until` is never negative; `time_since` is not negative when the query time is not
before the first timestamp `t0`, and is negative when the axis is strictly increasing and
the query time is before `t0`. -/
theorem getTimeInfo_weights (d : Dataset) (s s1 : NCState) (q t0 : ℚ)
    (hhead : d.time.head? = some t0) (hs : s.time_step = 0)
    (hT : getTimeInfo d s q = some s1) (hmore : s1.more_time = true) :
    0 ≤ s1.time_until ∧ (t0 ≤ q → 0 ≤ s1.time_since)
      ∧ (d.time.Pairwise (fun a b => a < b) → q < t0 → s1.time_since < 0) := by
  have h0 : d.time[0]? = some t0 := by rw [← List.head?_eq_getElem?]; exact hhead
  obtain ⟨hstep, _, _, _, hw⟩ := getTimeInfo_some d s s1 q hT
  obtain ⟨a, b, ha, hb, hsince, huntil⟩ := hw hmore
  rw [hstep, hs] at ha hb
  rcases timeScan_spec q d.time 0 0 with ⟨hr, hnone⟩ | ⟨_, ⟨t, ht, htq⟩, hmax⟩
  · rw [hr] at ha hb
    rw [h0] at ha
    simp only [Option.some.injEq] at ha
    subst ha
    have hbq := hnone _ b hb
    refine ⟨by rw [huntil]; linarith, fun h => by rw [hsince]; linarith,
      fun _ h => by rw [hsince]; linarith⟩
  · rw [Nat.sub_zero] at ht
    rw [ht] at ha
    simp only [Option.some.injEq] at ha
    subst ha
    have hbq : ¬ b < q := by
      intro hlt
      have := hmax _ b hb hlt
      omega
    refine ⟨by rw [huntil]; linarith, fun _ => by rw [hsince]; linarith, fun hsorted hq => ?_⟩
    rcases Nat.eq_zero_or_pos (timeScan q d.time 0 0) with hz | hp
    · rw [hz, h0] at ht
      simp only [Option.some.injEq] at ht
      subst ht
      linarith
    · have := pairwise_lt_getElem? hsorted 0 _ t0 t hp h0 ht
      linarith

/-- C22: on the strictly increasing axis `[0, 10]` a constructed engine called with the
query time -5, before the first timestamp, takes the `more_time` branch with `time_step = 0`
and leaves `time_since = -5`, a negative weight, and `time_until = 15`. -/
theorem C22_time_since_negative_before_first :
    demoTwo.time.Pairwise (fun a b => a < b) ∧ 2 ≤ demoTwo.time.length ∧ Constructed state0
      ∧ (getTimeInfo demoTwo state0 (-5)).map
          (fun s => (s.more_time, s.time_step, s.time_since, s.time_until))
        = some (true, 0, -5, 15)
      ∧ ¬ ((0 : ℚ) ≤ -5) := by
  decide!

/-! ## XYtoIndex: what the returned slots hold -/

/-- A slot stays `SlotOK` when more cells count as visited. -/
theorem SlotOK_mono {sqrt : ℚ → ℚ} {R x y : ℚ} {g : Grid} {V V1 : Nat → Nat → Prop}
    {dist : ℚ} {eta xi : Nat} (hV : ∀ a b, V a b → V1 a b)
    (h : SlotOK sqrt R x y g V dist eta xi) : SlotOK sqrt R x y g V1 dist eta xi :=
  fun hne => ⟨hV _ _ (h hne).1, (h hne).2⟩

/-- The invariant stays when more cells count as visited. -/
theorem SlotsInv_mono {sqrt : ℚ → ℚ} {R x y : ℚ} {g : Grid} {V V1 : Nat → Nat → Prop}
    {l : Near} (hV : ∀ a b, V a b → V1 a b) (h : SlotsInv sqrt R x y g V l) :
    SlotsInv sqrt R x y g V1 l :=
  ⟨SlotOK_mono hV h.1, SlotOK_mono hV h.2.1, SlotOK_mono hV h.2.2.1, SlotOK_mono hV h.2.2.2.1,
    h.2.2.2.2⟩

/-- The slot written for the cell `(j, i)` is `SlotOK` once the cell counts as visited. -/
theorem SlotOK_fresh (sqrt : ℚ → ℚ) (R x y : ℚ) (g : Grid) (V : Nat → Nat → Prop)
    (j i : Nat) (hj : j < g.size_eta) (hi : i < g.size_xi) :
    SlotOK sqrt R x y g (fun a b => V a b ∨ (a = j ∧ b = i))
      (sqrt ((g.meters_n j i - y) ^ 2 + (g.meters_e j i - x) ^ 2)) j i :=
  fun _ => ⟨Or.inr ⟨rfl, rfl⟩, hj, hi, rfl⟩

/-- A cell not yet visited is apart from every slot that is `SlotOK`. -/
theorem SlotsApart_fresh_left {sqrt : ℚ → ℚ} {R x y : ℚ} {g : Grid} {V : Nat → Nat → Prop}
    {j i : Nat} (hV : ¬ V j i) (w : ℚ) {d : ℚ} {e xi : Nat}
    (h : SlotOK sqrt R x y g V d e xi) : SlotsApart R w j i d e xi :=
  fun _ hd heq => hV (by rw [heq.1, heq.2]; exact (h hd).1)

/-- The same with the two slots in the other order. -/
theorem SlotsApart_fresh_right {sqrt : ℚ → ℚ} {R x y : ℚ} {g : Grid} {V : Nat → Nat → Prop}
    {j i : Nat} (hV : ¬ V j i) (w : ℚ) {d : ℚ} {e xi : Nat}
    (h : SlotOK sqrt R x y g V d e xi) : SlotsApart R d e xi w j i :=
  fun hd _ heq => hV (by rw [← heq.1, ← heq.2]; exact (h hd).1)

/-- One step of the scan at a cell of the grid that was not visited before keeps the
invariant, the cell now counting as visited. -/
theorem xyStep_slots (sqrt : ℚ → ℚ) (R x y : ℚ) (g : Grid) (V : Nat → Nat → Prop)
    (j i : Nat) (l : Near) (hj : j < g.size_eta) (hi : i < g.size_xi) (hV : ¬ V j i)
    (h : SlotsInv sqrt R x y g V l) :
    SlotsInv sqrt R x y g (fun a b => V a b ∨ (a = j ∧ b = i))
      (xyStep sqrt x y (g.meters_n j i) (g.meters_e j i) j i l) := by
  obtain ⟨k0, k1, k2, k3, p01, p02, p03, p12, p13, p23⟩ := h
  have hsub : ∀ a b, V a b → V a b ∨ (a = j ∧ b = i) := fun _ _ hab => Or.inl hab
  have n := SlotOK_fresh sqrt R x y g V j i hj hi
  unfold xyStep
  split_ifs
  · exact ⟨n, SlotOK_mono hsub k0, SlotOK_mono hsub k1, SlotOK_mono hsub k2,
      SlotsApart_fresh_left hV _ k0, SlotsApart_fresh_left hV _ k1,
      SlotsApart_fresh_left hV _ k2, p01, p02, p12⟩
  · exact ⟨SlotOK_mono hsub k0, n, SlotOK_mono hsub k1, SlotOK_mono hsub k2,
      SlotsApart_fresh_right hV _ k0, p01, p02,
      SlotsApart_fresh_left hV _ k1, SlotsApart_fresh_left hV _ k2, p12⟩
  · exact ⟨SlotOK_mono hsub k0, SlotOK_mono hsub k1, n, SlotOK_mono hsub k2,
      p01, SlotsApart_fresh_right hV _ k0, p02,
      SlotsApart_fresh_right hV _ k1, p12, SlotsApart_fresh_left hV _ k2⟩
  · exact ⟨SlotOK_mono hsub k0, SlotOK_mono hsub k1, SlotOK_mono hsub k2, n,
      p01, p02, SlotsApart_fresh_right hV _ k0, p12,
      SlotsApart_fresh_right hV _ k1, SlotsApart_fresh_right hV _ k2⟩
  · exact ⟨SlotOK_mono hsub k0, SlotOK_mono hsub k1, SlotOK_mono hsub k2, SlotOK_mono hsub k3, p01, p02, p03, p12, p13, p23⟩

/-- Scanning a row over columns that were not visited before keeps the invariant, the
scanned cells of the row now counting as visited. -/
theorem scanRow_slots (sqrt : ℚ → ℚ) (R x y : ℚ) (g : Grid) (j : Nat) :
    ∀ (is : List Nat) (l l1 : Near) (V : Nat → Nat → Prop), is.Nodup →
      (∀ i ∈ is, ¬ V j i) → scanRow sqrt x y g j is l = some l1 →
      SlotsInv sqrt R x y g V l →
      SlotsInv sqrt R x y g (fun a b => V a b ∨ (a = j ∧ b ∈ is)) l1 := by
  intro is
  induction is with
  | nil =>
    intro l l1 V _ _ h hinv
    simp only [scanRow, Option.some.injEq] at h
    rw [← h]
    exact SlotsInv_mono (fun _ _ hab => Or.inl hab) hinv
  | cons i is ih =>
    intro l l1 V hnd hV h hinv
    unfold scanRow at h
    unfold Grid.read at h
    by_cases hin : j < g.size_eta ∧ i < g.size_xi
    · rw [if_pos hin] at h
      have hnd1 := List.nodup_cons.mp hnd
      have hstep := xyStep_slots sqrt R x y g V j i l hin.1 hin.2
        (hV i (List.mem_cons_self i is)) hinv
      have hV1 : ∀ i1 ∈ is, ¬ (V j i1 ∨ (j = j ∧ i1 = i)) := by
        intro i1 hi1 hor
        rcases hor with hv | ⟨_, heq⟩
        · exact hV i1 (List.mem_cons_of_mem i hi1) hv
        · rw [heq] at hi1; exact hnd1.1 hi1
      refine SlotsInv_mono ?_ (ih _ l1 _ hnd1.2 hV1 h hstep)
      intro a b hab
      rcases hab with (hv | ⟨ha, hb⟩) | ⟨ha, hb⟩
      · exact Or.inl hv
      · exact Or.inr ⟨ha, by rw [hb]; exact List.mem_cons_self i is⟩
      · exact Or.inr ⟨ha, List.mem_cons_of_mem i hb⟩
    · rw [if_neg hin] at h
      exact absurd h (by simp)

/-- Scanning the grid over rows that were not visited before keeps the invariant, the
cells of the scanned rows and columns now counting as visited. -/
theorem scanGrid_slots (sqrt : ℚ → ℚ) (R x y : ℚ) (g : Grid) :
    ∀ (js : List Nat) (l l1 : Near) (V : Nat → Nat → Prop), js.Nodup →
      (∀ j ∈ js, ∀ i, ¬ V j i) → scanGrid sqrt x y g js l = some l1 →
      SlotsInv sqrt R x y g V l →
      SlotsInv sqrt R x y g
        (fun a b => V a b ∨ (a ∈ js ∧ b ∈ List.range g.size_eta)) l1 := by
  intro js
  induction js with
  | nil =>
    intro l l1 V _ _ h hinv
    simp only [scanGrid, Option.some.injEq] at h
    rw [← h]
    exact SlotsInv_mono (fun _ _ hab => Or.inl hab) hinv
  | cons j js ih =>
    intro l l1 V hnd hV h hinv
    unfold scanGrid at h
    cases hrow : scanRow sqrt x y g j (List.range g.size_eta) l with
    | none => rw [hrow] at h; exact absurd h (by simp)
    | some l2 =>
      rw [hrow] at h
      have hnd1 := List.nodup_cons.mp hnd
      have hrowinv := scanRow_slots sqrt R x y g j (List.range g.size_eta) l l2 V
        (List.nodup_range g.size_eta) (fun i _ => hV j (List.mem_cons_self j js) i) hrow hinv
      have hV1 : ∀ j1 ∈ js, ∀ i1,
          ¬ (V j1 i1 ∨ (j1 = j ∧ i1 ∈ List.range g.size_eta)) := by
        intro j1 hj1 i1 hor
        rcases hor with hv | ⟨heq, _⟩
        · exact hV j1 (List.mem_cons_of_mem j hj1) i1 hv
        · rw [heq] at hj1; exact hnd1.1 hj1
      refine SlotsInv_mono ?_ (ih l2 l1 _ hnd1.2 hV1 h hrowinv)
      intro a b hab
      rcases hab with (hv | ⟨ha, hb⟩) | ⟨ha, hb⟩
      · exact Or.inl hv
      · exact Or.inr ⟨by rw [ha]; exact List.mem_cons_self j js, hb⟩
      · exact Or.inr ⟨List.mem_cons_of_mem j ha, hb⟩

/-- After the whole scan from the initial slots, every slot whose distance is not the
sentinel holds a scanned cell of the grid with `sqrt` of its squared distance, and such
slots hold different cells. -/
theorem scan_slots (sqrt : ℚ → ℚ) (R x y : ℚ) (g : Grid) (l : Near)
    (h : scanGrid sqrt x y g (List.range g.size_eta) (nearInitR R) = some l) :
    SlotsInv sqrt R x y g (fun a b => a < g.size_eta ∧ b < g.size_eta) l := by
  have hinit : SlotsInv sqrt R x y g (fun _ _ => False) (nearInitR R) := by
    refine ⟨?_, ?_, ?_, ?_, ?_, ?_, ?_, ?_, ?_, ?_⟩ <;> intro hne <;> exact absurd rfl hne
  refine SlotsInv_mono ?_ (scanGrid_slots sqrt R x y g _ _ l _ (List.nodup_range g.size_eta)
    (fun _ _ _ hf => hf) h hinit)
  intro a b hab
  rcases hab with hf | ⟨ha, hb⟩
  · exact absurd hf (fun h => h)
  · exact ⟨List.mem_range.mp ha, List.mem_range.mp hb⟩

/-- The slots of a search with radius `R` that returns true are self-consistent. -/
theorem XYtoIndexR_self_consistent (sqrt : ℚ → ℚ) (R x y : ℚ) (g : Grid) (l : Near)
    (hX : XYtoIndexR sqrt R x y g = some (true, l)) : SelfConsistent sqrt x y g l := by
  unfold XYtoIndexR at hX
  cases hscan : scanGrid sqrt x y g (List.range g.size_eta) (nearInitR R) with
  | none => rw [hscan] at hX; exact absurd hX (by simp)
  | some l1 =>
    rw [hscan] at hX
    obtain ⟨k0, k1, k2, k3, p01, p02, p03, p12, p13, p23⟩ := scan_slots sqrt R x y g l1 hscan
    dsimp only at hX
    by_cases hs : l1.l_dist.a0 = R ∨ l1.l_dist.a1 = R ∨ l1.l_dist.a2 = R ∨ l1.l_dist.a3 = R
    · rw [if_pos hs] at hX
      simp at hX
    · rw [if_neg hs] at hX
      simp only [Option.some.injEq, Prod.mk.injEq, true_and] at hX
      rw [← hX]
      have h0 : l1.l_dist.a0 ≠ R := fun h => hs (Or.inl h)
      have h1 : l1.l_dist.a1 ≠ R := fun h => hs (Or.inr (Or.inl h))
      have h2 : l1.l_dist.a2 ≠ R := fun h => hs (Or.inr (Or.inr (Or.inl h)))
      have h3 : l1.l_dist.a3 ≠ R := fun h => hs (Or.inr (Or.inr (Or.inr h)))
      exact ⟨⟨(k0 h0).1.1, (k0 h0).1.2, (k0 h0).2.2.1, (k0 h0).2.2.2⟩,
        ⟨(k1 h1).1.1, (k1 h1).1.2, (k1 h1).2.2.1, (k1 h1).2.2.2⟩,
        ⟨(k2 h2).1.1, (k2 h2).1.2, (k2 h2).2.2.1, (k2 h2).2.2.2⟩,
        ⟨(k3 h3).1.1, (k3 h3).1.2, (k3 h3).2.2.1, (k3 h3).2.2.2⟩,
        p01 h0 h1, p02 h0 h2, p03 h0 h3, p12 h1 h2, p13 h1 h3, p23 h2 h3⟩

/-- C23: for every `sqrt`, grid and query point for which `XYtoIndex` returns true, each of
the four returned slots holds the index pair of a cell of the grid in a scanned row and
column together with `sqrt` of the squared distance from `(x, y)` to that cell's node, and
the four index pairs are pairwise different. -/
theorem C23_slots_self_consistent (sqrt : ℚ → ℚ) (x y : ℚ) (g : Grid) (l : Near)
    (hX : XYtoIndex sqrt x y g = some (true, l)) : SelfConsistent sqrt x y g l :=
  XYtoIndexR_self_consistent sqrt chk_dist x y g l hX

/-- C23 on the 2 × 2 grid `grid22` and the query point `(3, 4)`: the four slots hold the
four cells, each at distance 5. -/
theorem C23_slots_self_consistent_witness :
    XYtoIndex sqrtQ 3 4 grid22
        = some (true, { l_eta := ⟨0, 0, 1, 1⟩, l_xi := ⟨0, 1, 0, 1⟩, l_dist := ⟨5, 5, 5, 5⟩ })
      ∧ SelfConsistent sqrtQ 3 4 grid22
          { l_eta := ⟨0, 0, 1, 1⟩, l_xi := ⟨0, 1, 0, 1⟩, l_dist := ⟨5, 5, 5, 5⟩ } :=
  ⟨by decide!, C23_slots_self_consistent sqrtQ 3 4 grid22 _ (by decide!)⟩

end NCData
